import Mathlib

/-!
Verification of the grading-agent orchestration core against its design
specification.  The Python sources under `src/modules` (security.py,
performance.py, master_agent.py) and `src/conversation_history.py` are
shallowly embedded as executable Lean definitions; external collaborators
(the Azure LLM, the specialized agents, the data manager) are modelled as
oracles supplied through an `Env` record, and the wall clock is an explicit
natural-number parameter measured in seconds.
-/

namespace GradingAgent

/-! ### String utilities shared by the embedding

Python's `str.lower`, `str.strip`, the `in` substring operator and the
regular-expression character classes `\s` and `\w` (ASCII reading) are
modelled over `List Char`. -/

/-- Python `str.lower` (ASCII model). -/
def lowerStr (s : String) : String :=
  String.mk (s.toList.map Char.toLower)

/-- Python whitespace class `\s` = space, tab, newline, carriage return,
form feed, vertical tab (ASCII model). -/
def isPySpace (c : Char) : Bool :=
  c = ' ' || c = '\t' || c = '\n' || c = '\r' || c = '\x0b' || c = '\x0c'

/-- Python `str.strip()`: drop leading and trailing whitespace. -/
def pyStrip (s : String) : String :=
  String.mk (((s.toList.dropWhile isPySpace).reverse.dropWhile isPySpace).reverse)

/-- `needle` occurs as a contiguous substring of `hay` (Python `needle in hay`). -/
def containsSub (hay needle : List Char) : Bool :=
  match hay with
  | [] => needle.isEmpty
  | _ :: t => needle.isPrefixOf hay || containsSub t needle

/-- Python `needle in hay` on strings. -/
def strContains (hay needle : String) : Bool :=
  containsSub hay.toList needle.toList

/-- Regex `\w` character class (ASCII model): letters, digits, underscore. -/
def isWordChar (c : Char) : Bool :=
  c.isAlphanum || c = '_'

/-! ### `src/modules/security.py` — `InputValidator` -/

/-- The dict returned by `InputValidator.validate_input`. -/
structure ValidationResult where
  valid : Bool
  error : Option String
deriving Repr, DecidableEq

/-- Helper for regex 1 `<script[^>]*>.*?</script>`: after the closing `>` of
the opening tag, look for `</script>` with only non-newline characters
before it (`.` does not match a newline without `re.DOTALL`). -/
def findCloseNoNl (l : List Char) : Bool :=
  match l with
  | [] => false
  | c :: t => "</script>".toList.isPrefixOf l || (c ≠ '\n' && findCloseNoNl t)

/-- Helper for regex 1: consume `[^>]*>` then look for the closing tag. -/
def afterOpenTag (l : List Char) : Bool :=
  match l with
  | [] => false
  | c :: t => if c = '>' then findCloseNoNl t else afterOpenTag t

/-- Regex 1 `<script[^>]*>.*?</script>` anchored at the head of `l`
(text already lowercased for `re.IGNORECASE`). -/
def scriptTagAt (l : List Char) : Bool :=
  "<script".toList.isPrefixOf l && afterOpenTag (l.drop 7)

/-- `re.search` of regex 1 over the whole (lowercased) text. -/
def hasScriptTag (l : List Char) : Bool :=
  match l with
  | [] => false
  | _ :: t => scriptTagAt l || hasScriptTag t

/-- Helper for regex 3 `on\w+\s*=`: consume `\s*` then require `=`. -/
def spacesThenEq (l : List Char) : Bool :=
  match l with
  | [] => false
  | c :: t => if c = '=' then true else if isPySpace c then spacesThenEq t else false

/-- Helper for regex 3: at least one word character has been consumed;
consume the rest of `\w*` then `\s*=`. -/
def afterWordChars (l : List Char) : Bool :=
  match l with
  | [] => false
  | c :: t =>
    if isWordChar c then afterWordChars t
    else if c = '=' then true
    else if isPySpace c then spacesThenEq t
    else false

/-- Regex 3 `on\w+\s*=` anchored at the head of `l`. -/
def onHandlerAt (l : List Char) : Bool :=
  match l with
  | 'o' :: 'n' :: c :: t => isWordChar c && afterWordChars t
  | _ => false

/-- `re.search` of regex 3 over the whole (lowercased) text. -/
def hasEventHandler (l : List Char) : Bool :=
  match l with
  | [] => false
  | _ :: t => onHandlerAt l || hasEventHandler t

/-- Regex 2 `javascript:` under `re.IGNORECASE`. -/
def hasJsProtocol (l : List Char) : Bool :=
  containsSub l "javascript:".toList

/-- Any of the three `suspicious_patterns` of `validate_input` matches the
input (all searched case-insensitively, modelled by lowercasing first). -/
def hasSuspiciousPattern (s : String) : Bool :=
  let l := (lowerStr s).toList
  hasScriptTag l || hasJsProtocol l || hasEventHandler l

/-- `InputValidator.validate_input`.  `maxLen` stands for the configured
`config.max_input_length` (the config module holding it is not part of the
sources; it is passed as a parameter).  Python string length counts
characters, modelled by `String.length`. -/
def validate_input (maxLen : Nat) (user_input : String) : ValidationResult :=
  if user_input = "" || pyStrip user_input = "" then
    { valid := false, error := some "Input cannot be empty" }
  else if user_input.length > maxLen then
    { valid := false
      error := some ("Input too long (max " ++ toString maxLen ++ " characters)") }
  else if hasSuspiciousPattern user_input then
    { valid := false, error := some "Input contains potentially unsafe content" }
  else
    { valid := true, error := none }

/-- Helper for `sanitize_input`: collapse every run of whitespace to a
single space (`re.sub` with pattern `\s+` and replacement a space). -/
def collapseWs (l : List Char) : List Char :=
  match l with
  | [] => []
  | [c] => [if isPySpace c then ' ' else c]
  | c :: d :: t =>
    if isPySpace c && isPySpace d then collapseWs (d :: t)
    else (if isPySpace c then ' ' else c) :: collapseWs (d :: t)

/-- `InputValidator.sanitize_input`: strip, remove null bytes, collapse
whitespace runs. -/
def sanitize_input (user_input : String) : String :=
  let stripped := (pyStrip user_input).toList
  let noNull := stripped.filter (fun c => c ≠ '\x00')
  String.mk (collapseWs noNull)

example : validate_input 100 "Hello, how are you?" = { valid := true, error := none } := by decide
example : validate_input 100 "   " = { valid := false, error := some "Input cannot be empty" } := by decide
example : validate_input 5 "abcdefg" =
    { valid := false, error := some "Input too long (max 5 characters)" } := by decide
example : validate_input 100 "see <SCRIPT src=x>alert(1)</script> now" =
    { valid := false, error := some "Input contains potentially unsafe content" } := by decide
example : sanitize_input "  a\x00  b \t c " = "a b c" := by decide

/-! ### `src/modules/security.py` — `RateLimiter`

Time is modelled in whole seconds (`Nat`); `time.time()` becomes an explicit
`now` parameter.  The Python `int(...)` truncation in the `retry_after`
computation is exact under this integer-seconds model.  The per-identifier
dict `self.calls` is modelled as an association list. -/

/-- The in-memory state of a `RateLimiter` instance.  `enabled` mirrors
`config.rate_limit_enabled`; `maxCalls`/`timeWindow` mirror the constructor
arguments (`max_calls or config.rate_limit_calls` — a falsy `0` argument is
replaced by the config default, so instances always have `maxCalls ≥ 1`). -/
structure RateLimiter where
  maxCalls : Nat
  timeWindow : Nat
  calls : List (String × List Nat)
  enabled : Bool
deriving Repr, DecidableEq

/-- The dict returned by `check_rate_limit`. -/
structure RateCheck where
  allowed : Bool
  retry_after : Int
deriving Repr, DecidableEq

/-- Association-list lookup with Python's `dict` "initialize missing key to
`[]`" behaviour of `check_rate_limit`. -/
def callsFor (calls : List (String × List Nat)) (identifier : String) : List Nat :=
  match calls.find? (fun p => p.1 == identifier) with
  | some p => p.2
  | none => []

/-- Association-list update (Python `self.calls[identifier] = ...`). -/
def setCalls (calls : List (String × List Nat)) (identifier : String)
    (v : List Nat) : List (String × List Nat) :=
  match calls with
  | [] => [(identifier, v)]
  | p :: t => if p.1 == identifier then (identifier, v) :: t else p :: setCalls t identifier v

/-- The pruning filter of `check_rate_limit`: keep `call_time > now -
time_window` (computed over the integers, as Python does over reals). -/
def pruneWindow (timeWindow : Nat) (now : Nat) (l : List Nat) : List Nat :=
  l.filter (fun t => (now : Int) - timeWindow < (t : Int))

/-- `RateLimiter.check_rate_limit`.  In the deny branch `min([])` would raise
in Python; that branch is unreachable because `maxCalls ≥ 1` for every
constructed instance, and the model returns a default there. -/
def check_rate_limit (rl : RateLimiter) (identifier : String) (now : Nat) :
    RateCheck × RateLimiter :=
  if !rl.enabled then ({ allowed := true, retry_after := 0 }, rl)
  else
    let pruned := pruneWindow rl.timeWindow now (callsFor rl.calls identifier)
    if rl.maxCalls ≤ pruned.length then
      let oldest := pruned.min?.getD 0
      ({ allowed := false, retry_after := (rl.timeWindow : Int) - ((now : Int) - oldest) },
       { rl with calls := setCalls rl.calls identifier pruned })
    else
      ({ allowed := true, retry_after := 0 },
       { rl with calls := setCalls rl.calls identifier (pruned ++ [now]) })

/-- `RateLimiter.reset`. -/
def rateLimiterReset (rl : RateLimiter) (identifier : String) : RateLimiter :=
  { rl with calls := rl.calls.filter (fun p => p.1 ≠ identifier) }

/-! ### `src/modules/performance.py` — `ResponseCache`

`self.cache` (an `OrderedDict`, front = least recently used) and the
lock-step `self.timestamps` dict are merged into one ordered entry list.
`_generate_key` hashes `input ++ context` with md5; the hash is modelled as
the identity on the hashed text (keys are compared by equality either way;
md5 collisions are out of scope). -/

structure CacheEntry where
  key : String
  value : String
  timestamp : Nat
deriving Repr, DecidableEq

structure ResponseCache where
  max_size : Nat
  ttl : Nat
  enabled : Bool
  entries : List CacheEntry
  hits : Nat
  misses : Nat
deriving Repr, DecidableEq

/-- `ResponseCache._generate_key`: `data = user_input; if context: data +=
context` (an empty context string is falsy and is not appended). -/
def generate_key (user_input : String) (context : Option String) : String :=
  user_input ++ (match context with
                 | some c => if c = "" then "" else c
                 | none => "")

/-- First entry with the given key (`key in self.cache`). -/
def findEntry (entries : List CacheEntry) (key : String) : Option CacheEntry :=
  entries.find? (fun e => e.key == key)

/-- `del self.cache[key]` (keys are unique in an `OrderedDict`, so erasing
the first occurrence models dict deletion). -/
def removeKey (entries : List CacheEntry) (key : String) : List CacheEntry :=
  entries.eraseP (fun e => e.key == key)

/-- `self.cache.move_to_end(key)`: move the entry for `key` to the
most-recently-used end. -/
def moveToEnd (entries : List CacheEntry) (key : String) : List CacheEntry :=
  match findEntry entries key with
  | some e => removeKey entries key ++ [e]
  | none => entries

/-- `self.cache[key] = response; self.timestamps[key] = now`: dict
assignment keeps the position of an existing key and appends a new one. -/
def dictSetEntry (entries : List CacheEntry) (key value : String) (now : Nat) :
    List CacheEntry :=
  match entries with
  | [] => [{ key := key, value := value, timestamp := now }]
  | e :: t =>
    if e.key == key then { key := key, value := value, timestamp := now } :: t
    else e :: dictSetEntry t key value now

/-- `ResponseCache.get`: on a fresh hit, bump the hit counter and mark the
entry most recently used; on an expired entry, evict it eagerly and count a
miss; otherwise count a miss. -/
def cache_get (rc : ResponseCache) (user_input : String) (context : Option String)
    (now : Nat) : Option String × ResponseCache :=
  if !rc.enabled then (none, rc)
  else
    let key := generate_key user_input context
    match findEntry rc.entries key with
    | some e =>
      if now - e.timestamp < rc.ttl then
        (some e.value, { rc with entries := moveToEnd rc.entries key, hits := rc.hits + 1 })
      else
        (none, { rc with entries := removeKey rc.entries key, misses := rc.misses + 1 })
    | none => (none, { rc with misses := rc.misses + 1 })

/-- `ResponseCache.set`: when at capacity evict the entry at the
least-recently-used end (`next(iter(self.cache))`), then insert. -/
def cache_set (rc : ResponseCache) (user_input response : String)
    (context : Option String) (now : Nat) : ResponseCache :=
  if !rc.enabled then rc
  else
    let key := generate_key user_input context
    let entries₁ := if rc.max_size ≤ rc.entries.length then rc.entries.drop 1 else rc.entries
    { rc with entries := dictSetEntry entries₁ key response now }

/-! ### `src/conversation_history.py` — `ConversationHistory` -/

/-- `ChatMessage` dataclass.  Timestamps are the integer-seconds clock;
metadata is an opaque association list. -/
structure ChatMessage where
  role : String
  content : String
  timestamp : Nat
  agent_type : Option String := none
  metadata : Option (List (String × String)) := none
deriving Repr, DecidableEq

structure ConversationHistory where
  max_messages : Nat
  messages : List ChatMessage
deriving Repr, DecidableEq

/-- Python `lst[-k:]`: the last `k` elements for `k ≥ 1`, but the whole
list when `k = 0` (since `lst[-0:]` is `lst[0:]`). -/
def pySliceLast (k : Nat) (l : List α) : List α :=
  if k = 0 then l else l.drop (l.length - k)

/-- `ConversationHistory._add_message`: append, then trim to the last
`max_messages` entries whenever the length exceeds it. -/
def add_message (h : ConversationHistory) (m : ChatMessage) : ConversationHistory :=
  let ms := h.messages ++ [m]
  if h.max_messages < ms.length then
    { h with messages := pySliceLast h.max_messages ms }
  else
    { h with messages := ms }

/-- `ConversationHistory.add_user_message`. -/
def add_user_message (h : ConversationHistory) (content : String) (now : Nat) :
    ConversationHistory :=
  add_message h { role := "user", content := content, timestamp := now }

/-- `ConversationHistory.add_assistant_message` (the `metadata or {}`
default becomes the empty association list). -/
def add_assistant_message (h : ConversationHistory) (content : String)
    (agent_type : String) (now : Nat) : ConversationHistory :=
  add_message h
    { role := "assistant", content := content, timestamp := now
      agent_type := some agent_type, metadata := some [] }

example :
    let h := add_user_message { max_messages := 2, messages := [] } "a" 0
    let h := add_user_message h "b" 1
    let h := add_user_message h "c" 2
    (h.messages.map (fun m => m.content)) = ["b", "c"] := by decide

/-! ### `src/modules/master_agent.py` — the LangGraph workflow

Every node mutates the per-request state dict and returns it; with the
state channels used here (no reducers among the modelled fields) the graph
run is the sequential composition of the node functions along the compiled
edges.  The `messages`/`streaming_chunks` reducer channels and the
`grading_results` scratch field are not read by any modelled behaviour and
are omitted.  External collaborators are oracles in `Env`: every remote
call is an `Except String` value whose `.error` case is a raised Python
exception carrying `str(e)`. -/

/-- The oracles a single `chat` request consumes.
  * `classify` — the LLM classification reply (`response.content`);
  * `agents` — `self.specialized_agents` as a partial map from agent name
    to its processing function (`process_with_history`/`process`, or
    `format_grading_results` for the formatting agent);
  * `masterLLM` — the direct `self.llm.invoke` fallback reply;
  * `dataCtx` — `none` when `self.data_manager` is `None`, otherwise the
    number of `relevant_interactions` returned by
    `DataManager.get_relevant_context` (which never raises: it catches its
    own exceptions and returns an empty context);
  * `graphExc` — an exception escaping `self.graph.invoke` itself
    (LangGraph machinery), if any;
  * `maxInputLength` — `config.max_input_length`. -/
structure Env where
  classify : Except String String
  agents : String → Option (String → Except String String)
  masterLLM : Except String String
  dataCtx : Option Nat
  graphExc : Option String := none
  maxInputLength : Nat

/-- The modelled fields of `MasterAgentState` (a `GradingWorkflowState`).
All keys are present from `chat`'s `initial_state` (so `state.get(k, d)`
never falls back to its default), except `workflow_path`, which Python
creates on first use in `_grading_workflow_entry`; it is modelled as a
field that starts empty and is only ever appended to. -/
structure AgentState where
  user_input : String
  response : String
  error : String
  agent_type : String
  task_classification : String
  agent_responses : List (String × String)
  data_context : Option Nat
  workflow_path : List String
  formatted_output : String
  additional_notes : String
  current_agent : String
deriving Repr, DecidableEq

/-- `chat`'s `initial_state` (the unmodelled keys omitted). -/
def initialState (user_input : String) : AgentState :=
  { user_input := user_input, response := "", error := "", agent_type := ""
    task_classification := "", agent_responses := [], data_context := none
    workflow_path := [], formatted_output := "", additional_notes := ""
    current_agent := "" }

/-- Python-dict insertion into `agent_responses`: update an existing key in
place, else append. -/
def dictInsert (l : List (String × String)) (k v : String) : List (String × String) :=
  match l with
  | [] => [(k, v)]
  | p :: t => if p.1 == k then (k, v) :: t else p :: dictInsert t k v

/-- Lookup in `agent_responses` (`dict.get`). -/
def dictGet (l : List (String × String)) (k : String) : Option String :=
  (l.find? (fun p => p.1 == k)).map (fun p => p.2)

/-- `MasterAgent._classify_task`: empty (stripped) input is an error; the
LLM label is stripped, lowercased and validated against the closed label
set with `chat` as the fallback; an LLM exception becomes a state error. -/
def classify_task (env : Env) (s : AgentState) : AgentState :=
  if pyStrip s.user_input = "" then { s with error := "Empty input provided" }
  else
    match env.classify with
    | .error e => { s with error := "Error classifying task: " ++ e }
    | .ok raw =>
      let t := lowerStr (pyStrip raw)
      let t := if t = "chat" || t = "analysis" || t = "grading" || t = "code_review"
               then t else "chat"
      { s with task_classification := t, agent_type := t }

/-- `MasterAgent._route_to_agent` (standard workflow): a registered agent
produces `agent_responses = {agent_type: response}` (the dict is replaced
wholesale); otherwise the master LLM fallback produces
`{"master": response}`. -/
def route_to_agent (env : Env) (s : AgentState) : AgentState :=
  match env.agents s.agent_type with
  | some f =>
    match f s.user_input with
    | .ok r => { s with agent_responses := [(s.agent_type, r)] }
    | .error e => { s with error := "Error routing to agent: " ++ e }
  | none =>
    match env.masterLLM with
    | .ok r => { s with agent_responses := [("master", r)] }
    | .error e => { s with error := "Error routing to agent: " ++ e }

/-- `MasterAgent._manage_data`: with a data manager, store the interaction
(a disk side effect outside the state) and record the retrieved context;
without one, `data_context` stays the empty dict (`none` here).
`DataManager.store_interaction`/`get_relevant_context` catch their own
exceptions, so this node never errors. -/
def manage_data (env : Env) (s : AgentState) : AgentState :=
  { s with data_context := env.dataCtx }

/-- `MasterAgent._synthesize_response`: take the first stored agent
response and append the context note when relevant interactions exist
(`data_context` truthy and `relevant_interactions` non-empty). -/
def synthesize_response (s : AgentState) : AgentState :=
  match s.agent_responses with
  | [] => { s with error := "No agent responses to synthesize" }
  | (_, v) :: _ =>
    let v := match s.data_context with
             | some n =>
               if 0 < n then
                 v ++ "\n\n[Context: Based on " ++ toString n ++ " previous interactions]"
               else v
             | none => v
    { s with response := v }

/-- `MasterAgent._handle_error` (reached only with a truthy `error`, and
the `error` key always exists, so the `"Unknown error occurred"` dict
default never fires). -/
def handle_error (s : AgentState) : AgentState :=
  { s with response := "I apologize, but I encountered an error: " ++ s.error }

/-- `MasterAgent._grading_workflow_entry`. -/
def grading_workflow_entry (s : AgentState) : AgentState :=
  { s with workflow_path := s.workflow_path ++ ["grading_workflow_entry"]
           current_agent := "grading", formatted_output := "", additional_notes := "" }

/-- `MasterAgent._route_to_grading`. -/
def route_to_grading (env : Env) (s : AgentState) : AgentState :=
  let s1 := { s with workflow_path := s.workflow_path ++ ["route_to_grading"]
                     current_agent := "grading" }
  match env.agents "grading" with
  | none => { s1 with error := "Grading agent not available" }
  | some f =>
    match f s.user_input with
    | .error e => { s1 with error := "Error in grading agent: " ++ e }
    | .ok r => { s1 with agent_responses := dictInsert s.agent_responses "grading" r }

/-- `MasterAgent._route_to_formatting`: without a formatting agent the raw
grading output becomes the formatted output; a formatting exception is
recorded in `error` (leaving `formatted_output` as initialised). -/
def route_to_formatting (env : Env) (s : AgentState) : AgentState :=
  let s1 := { s with workflow_path := s.workflow_path ++ ["route_to_formatting"]
                     current_agent := "formatting" }
  let grading_output := (dictGet s.agent_responses "grading").getD ""
  match env.agents "formatting" with
  | none => { s1 with formatted_output := grading_output }
  | some f =>
    match f grading_output with
    | .error e => { s1 with error := "Error in formatting agent: " ++ e }
    | .ok fo =>
      { s1 with formatted_output := fo
                agent_responses := dictInsert s.agent_responses "formatting" fo }

/-- The trigger keyword test of `_route_to_chat_notes` over the lowercased
user input. -/
def hasNotesKeyword (user_input : String) : Bool :=
  let l := lowerStr user_input
  strContains l "explain" || strContains l "notes" ||
  strContains l "clarify" || strContains l "details"

/-- `MasterAgent._route_to_chat_notes`: the node always records itself in
`workflow_path`; notes are generated only when a trigger keyword occurs,
and a chat-agent exception is non-critical (notes stay empty). -/
def route_to_chat_notes (env : Env) (s : AgentState) : AgentState :=
  let s1 := { s with workflow_path := s.workflow_path ++ ["route_to_chat_notes"]
                     current_agent := "chat" }
  if hasNotesKeyword s.user_input then
    match env.agents "chat" with
    | some f =>
      match f ("Based on this grading result, provide brief additional notes:\n"
          ++ s.formatted_output) with
      | .ok notes =>
        { s1 with additional_notes := notes
                  agent_responses := dictInsert s.agent_responses "chat" notes }
      | .error _ => { s1 with additional_notes := "" }
    | none => s1
  else s1

/-- Conditional edge `_should_use_grading_workflow`. -/
def should_use_grading_workflow (s : AgentState) : String :=
  if s.error ≠ "" then "error"
  else if s.agent_type = "grading" then "grading_workflow"
  else "standard_workflow"

/-- Conditional edge `_should_manage_data`. -/
def should_manage_data (env : Env) (s : AgentState) : String :=
  if s.error ≠ "" then "error"
  else if env.dataCtx.isSome then "data"
  else "synthesize"

/-- One run of the compiled graph (`_create_graph` edges):
`classify_task` then either the error handler, the grading pipeline
(`grading_workflow_entry → route_to_grading → route_to_formatting →
route_to_chat_notes → manage_data → synthesize_response`, all edges
unconditional), or the standard path (`route_to_agent` then, per
`_should_manage_data`, the error handler or `manage_data`/
`synthesize_response`). -/
def runGraph (env : Env) (s0 : AgentState) : AgentState :=
  let s1 := classify_task env s0
  if should_use_grading_workflow s1 = "error" then handle_error s1
  else if should_use_grading_workflow s1 = "grading_workflow" then
    let s2 := grading_workflow_entry s1
    let s3 := route_to_grading env s2
    let s4 := route_to_formatting env s3
    let s5 := route_to_chat_notes env s4
    let s6 := manage_data env s5
    synthesize_response s6
  else
    let s2 := route_to_agent env s1
    if should_manage_data env s2 = "error" then handle_error s2
    else if should_manage_data env s2 = "data" then
      synthesize_response (manage_data env s2)
    else synthesize_response s2

/-! ### `src/modules/master_agent.py` — `MasterAgent.chat`

The orchestrator's mutable components are gathered in `MasterAgentRT`.
`SystemMonitor.log_request` and `metrics_collector.record_request` are
modelled as append-only logs of `(agent_type, success, error?)` records
(wall-clock durations are not modelled); `TokenOptimizer.estimate_tokens`
is `len(text) // 4`. -/

/-- `TokenOptimizer.estimate_tokens`. -/
def estimate_tokens (text : String) : Nat := text.length / 4

/-- One `log_request` / `record_request` entry. -/
structure MonRecord where
  agent_type : String
  success : Bool
  error : Option String := none
deriving Repr, DecidableEq

/-- The mutable state a `chat` call reads and writes. -/
structure MasterAgentRT where
  history : ConversationHistory
  cache : ResponseCache
  limiter : RateLimiter
  monitorLog : List MonRecord
  metricsLog : List MonRecord
  tokenLog : List Nat
deriving Repr, DecidableEq

/-- A `chat` call either raises one of the two typed exceptions or answers
with a response string. -/
inductive ChatOutcome
  | raisedValidation (msg : String)
  | raisedRateLimit (msg : String)
  | answered (response : String)
deriving Repr, DecidableEq

/-- `MasterAgent.chat`.  Steps, in source order: validate (raise
`InputValidationException` on failure), sanitize, rate-limit (raise
`RateLimitException` when denied), cache lookup keyed by the sanitized
input and the pre-call history length, early return on a truthy cached
value, append the user message, run the graph (`env.graphExc` models an
exception escaping `graph.invoke`; the generic handler turns it into an
apology appended to history tagged `"error"` and records a failure in
monitor and metrics), then cache the response, append it to history tagged
with the task classification, and record success metrics and the token
estimate. -/
def chat (env : Env) (ma : MasterAgentRT) (user_input session_id : String)
    (now : Nat) : ChatOutcome × MasterAgentRT :=
  let validation := validate_input env.maxInputLength user_input
  if validation.valid = false then
    (.raisedValidation (validation.error.getD ""), ma)
  else
    let input := sanitize_input user_input
    let (rate_check, limiter) := check_rate_limit ma.limiter session_id now
    let ma := { ma with limiter := limiter }
    if rate_check.allowed = false then
      (.raisedRateLimit ("Rate limit exceeded. Please try again in "
          ++ toString rate_check.retry_after ++ " seconds."), ma)
    else
      let cache_context := toString ma.history.messages.length
      let (cached, cache) := cache_get ma.cache input (some cache_context) now
      let ma := { ma with cache := cache }
      match cached with
      | some c =>
        if c ≠ "" then (.answered c, ma)
        else chatAfterCache env ma input cache_context now
      | none => chatAfterCache env ma input cache_context now
where
  /-- Steps 4–9 of `chat` (after the cache miss). -/
  chatAfterCache (env : Env) (ma : MasterAgentRT) (input cache_context : String)
      (now : Nat) : ChatOutcome × MasterAgentRT :=
    let ma := { ma with history := add_user_message ma.history input now }
    match env.graphExc with
    | some e =>
      let agent_type := "unknown"
      let ma := { ma with
        monitorLog := ma.monitorLog ++ [({ agent_type := agent_type, success := false } : MonRecord)]
        metricsLog := ma.metricsLog
          ++ [({ agent_type := agent_type, success := false, error := some e } : MonRecord)] }
      let error_response := "I apologize, but I encountered an error: " ++ e
      let ma := { ma with history := add_assistant_message ma.history error_response "error" now }
      (.answered error_response, ma)
    | none =>
      let result := runGraph env (initialState input)
      let agent_type := result.task_classification
      let response := result.response
      let ma := { ma with cache := cache_set ma.cache input response (some cache_context) now }
      let ma := { ma with history := add_assistant_message ma.history response agent_type now }
      let ma := { ma with
        monitorLog := ma.monitorLog ++ [({ agent_type := agent_type, success := true } : MonRecord)]
        metricsLog := ma.metricsLog ++ [({ agent_type := agent_type, success := true } : MonRecord)]
        tokenLog := ma.tokenLog ++ [estimate_tokens (input ++ response)] }
      (.answered response, ma)

/-! ### `src/modules/master_agent.py` — `MasterAgent.chat_streaming`

The async generator is modelled as the list of events it yields, in order.
Conversation-history streaming-slot bookkeeping (`start_streaming_message`
etc., whose module is not among the sources) produces no events and is not
modelled.  A streaming agent is an oracle giving the chunk list of
`stream_process` plus an optional exception raised after those chunks; a
non-streaming call is an `Except` as before. -/

/-- The tagged event dicts yielded by `chat_streaming`.  The `error` dict
carries no `agent` key. -/
inductive StreamEvent
  | status (content agent : String)
  | chunk (content agent : String)
  | complete (content agent : String)
  | error (content : String)
deriving Repr, DecidableEq

/-- One specialized agent as seen by `chat_streaming`: `streamChunks` is
`some` exactly when the object has a `stream_process` attribute, returning
the yielded chunks and an optional exception raised after them; `proc` is
the non-streaming fallback (`process_with_history`, or
`format_grading_results` for the formatting agent). -/
structure StreamAgentSpec where
  streamChunks : Option (String → List String × Option String)
  proc : String → Except String String

/-- The keyword classification of `chat_streaming` (it does not call the
LLM): grading keywords first, then analysis keywords, else chat. -/
def streamingClassify (user_lower : String) : String :=
  if strContains user_lower "grade" || strContains user_lower "grading" ||
     strContains user_lower "score" || strContains user_lower "rubric" ||
     strContains user_lower "assessment" then "grading"
  else if strContains user_lower "analyze" || strContains user_lower "analysis" ||
     strContains user_lower "data" || strContains user_lower "statistics" then "analysis"
  else "chat"

/-- The events of one streamed agent phase (steps 6a/6b and the single-agent
branch): chunks then one `complete`, or chunks then the generator's generic
`except` yielding a single unattributed `error` event.  Returns the events
and `some accumulatedText` on success, `none` when the exception aborts the
generator. -/
def streamPhase (agent : String) (r : List String × Option String) :
    List StreamEvent × Option String :=
  let chunkEvents := r.1.map (fun c => StreamEvent.chunk c agent)
  match r.2 with
  | some e => (chunkEvents ++ [.error ("Error: " ++ e)], none)
  | none => (chunkEvents ++ [.complete "" agent], some (String.join r.1))

/-- The grading-workflow half of `chat_streaming` (step 6, grading then
formatting), given the sanitized input. -/
def streamingGradingWorkflow (agents : String → Option StreamAgentSpec)
    (input : String) : List StreamEvent :=
  let intro := [StreamEvent.status "Starting grading workflow..." "master",
                StreamEvent.status "Analyzing with grading agent..." "grading"]
  match agents "grading" with
  | none =>
    -- `grading_agent.process_with_history` on `None` raises AttributeError
    intro ++ [.error "Error: 'NoneType' object has no attribute 'process_with_history'"]
  | some ga =>
    let (gradingEvents, gradingOut) :=
      match ga.streamChunks with
      | some sc => streamPhase "grading" (sc input)
      | none =>
        match ga.proc input with
        | .ok out => ([StreamEvent.chunk out "grading"], some out)
        | .error e => ([StreamEvent.error ("Error: " ++ e)], none)
    match gradingOut with
    | none => intro ++ gradingEvents
    | some gOut =>
      let fmtIntro := [StreamEvent.status "Formatting results..." "formatting"]
      let fmtEvents :=
        match agents "formatting" with
        | some fa =>
          match fa.streamChunks with
          | some sc => (streamPhase "formatting" (sc gOut)).1
          | none =>
            match fa.proc gOut with
            | .ok fo => [StreamEvent.chunk fo "formatting"]
            | .error e => [StreamEvent.error ("Error: " ++ e)]
        | none => [StreamEvent.chunk gOut "formatting"]
      intro ++ gradingEvents ++ fmtIntro ++ fmtEvents

/-- The single-agent half of `chat_streaming`: a streaming-capable agent
announces itself and streams; otherwise its full non-streaming output (or
`"Agent not available"` when unregistered) is yielded as one chunk with no
terminal event. -/
def streamingSingleAgent (agents : String → Option StreamAgentSpec)
    (agent_type input : String) : List StreamEvent :=
  match agents agent_type with
  | some a =>
    match a.streamChunks with
    | some sc =>
      [StreamEvent.status ("Processing with " ++ agent_type ++ " agent...") agent_type]
        ++ (streamPhase agent_type (sc input)).1
    | none =>
      match a.proc input with
      | .ok r => [StreamEvent.chunk r agent_type]
      | .error e => [StreamEvent.error ("Error: " ++ e)]
  | none => [StreamEvent.chunk "Agent not available" agent_type]

/-- `MasterAgent.chat_streaming`: validation and rate-limit failures yield a
single `error` event; otherwise one classification `status` event precedes
the workflow events. -/
def chat_streaming (maxLen : Nat) (agents : String → Option StreamAgentSpec)
    (rl : RateLimiter) (user_input session_id : String) (now : Nat) :
    List StreamEvent :=
  let validation := validate_input maxLen user_input
  if validation.valid = false then [.error (validation.error.getD "")]
  else
    let input := sanitize_input user_input
    let (rate_check, _) := check_rate_limit rl session_id now
    if rate_check.allowed = false then
      [.error ("Rate limit exceeded. Retry in " ++ toString rate_check.retry_after ++ "s")]
    else
      let user_lower := lowerStr input
      let agent_type := streamingClassify user_lower
      [StreamEvent.status "Classifying request..." "master"]
        ++ (if agent_type = "grading" then streamingGradingWorkflow agents input
            else streamingSingleAgent agents agent_type input)

/-- An agent participates in an event sequence when some `status`, `chunk`
or `complete` event names it. -/
def participates (agent : String) (events : List StreamEvent) : Bool :=
  events.any (fun e =>
    match e with
    | .status _ a => a = agent
    | .chunk _ a => a = agent
    | .complete _ a => a = agent
    | .error _ => false)

/-- Terminal events attributable to an agent: its `complete` events, plus
every (unattributed) `error` event, read in the agent's favour. -/
def isTerminalFor (agent : String) (e : StreamEvent) : Bool :=
  match e with
  | .complete _ a => a = agent
  | .error _ => true
  | _ => false

/-! ## Claim C6 — rolling-window eviction in `ConversationHistory` -/

/-- `_add_message` preserves the bound field. -/
lemma add_message_max (h : ConversationHistory) (m : ChatMessage) :
    (add_message h m).max_messages = h.max_messages := by
  simp only [add_message]
  split <;> rfl

/-- A single `_add_message` keeps exactly the last `max_messages` entries
(uniformly expressed with `List.drop`), provided `max_messages ≥ 1`. -/
lemma add_message_eq_drop (h : ConversationHistory) (m : ChatMessage)
    (hmax : 1 ≤ h.max_messages) :
    (add_message h m).messages =
      (h.messages ++ [m]).drop ((h.messages ++ [m]).length - h.max_messages) := by
  by_cases hlt : h.max_messages < (h.messages ++ [m]).length
  · simp only [add_message, if_pos hlt, pySliceLast]
    rw [if_neg (by omega)]
  · simp only [add_message, if_neg hlt]
    have h0 : (h.messages ++ [m]).length - h.max_messages = 0 := by
      simp only [List.length_append, List.length_cons, List.length_nil] at hlt ⊢
      omega
    rw [h0, List.drop_zero]

/-- Folding `_add_message` over an initial history within its bound keeps
exactly the last `max_messages` of the concatenated stream. -/
lemma foldl_add_message (max : Nat) (hmax : 1 ≤ max) :
    ∀ (msgs init : List ChatMessage), init.length ≤ max →
      (msgs.foldl add_message ⟨max, init⟩).messages =
        (init ++ msgs).drop ((init ++ msgs).length - max) := by
  intro msgs
  induction msgs with
  | nil =>
    intro init hinit
    simp only [List.foldl_nil, List.append_nil]
    have : init.length - max = 0 := by omega
    simp [this]
  | cons m ms ih =>
    intro init hinit
    have hrec : add_message ⟨max, init⟩ m =
        ⟨max, (init ++ [m]).drop ((init ++ [m]).length - max)⟩ := by
      have h1 := add_message_max ⟨max, init⟩ m
      have h2 := add_message_eq_drop ⟨max, init⟩ m hmax
      rcases hadd : add_message ⟨max, init⟩ m with ⟨mm, msgs2⟩
      rw [hadd] at h1 h2
      simp only at h1 h2
      simp [h1, h2]
    have hlen : ((init ++ [m]).drop ((init ++ [m]).length - max)).length ≤ max := by
      rw [List.length_drop]; omega
    set A := init ++ [m] with hA
    have hAlen : A.length = init.length + 1 := by simp [hA]
    set d := A.length - max with hd
    have hdle : d ≤ A.length := by omega
    have key : ∀ j : Nat, (A ++ ms).drop (d + j) = (A.drop d ++ ms).drop j := by
      intro j
      rw [← List.drop_drop, List.drop_append_of_le_length hdle]
    have hdroplen : (A.drop d).length = A.length - d := List.length_drop d A
    calc ((m :: ms).foldl add_message ⟨max, init⟩).messages
        = (ms.foldl add_message (add_message ⟨max, init⟩ m)).messages := by
          simp [List.foldl_cons]
      _ = ((A.drop d ++ ms)).drop (((A.drop d) ++ ms).length - max) := by
          rw [hrec]; exact ih _ hlen
      _ = (init ++ m :: ms).drop ((init ++ m :: ms).length - max) := by
          have harr : init ++ m :: ms = A ++ ms := by simp [hA]
          rw [harr]
          have hgoal : (A ++ ms).length - max =
              d + (((A.drop d).length + ms.length) - max) := by
            simp only [List.length_append]
            omega
          rw [hgoal, key]
          congr 1
          simp [List.length_append]

/-- C6 counterexample: the claim quantifies over every `ConversationHistory`,
but with `max_messages = 0` the trimming slice `messages[-0:]` is
`messages[0:]` (the whole list), so after appending one message (n = 1 >
maxMessages = 0) the stored list has length 1, not `maxMessages`. -/
theorem C6_fifo_counterexample :
    let h := ([({ role := "user", content := "a", timestamp := 0 } : ChatMessage)]).foldl
      add_message { max_messages := 0, messages := [] }
    0 < 1 ∧ h.messages.length = 1 ∧ h.messages.length ≠ h.max_messages := by
  decide

/-- C6 (amended: `maxMessages ≥ 1`): appending `n > maxMessages` messages to
a fresh history stores exactly the last `maxMessages` of them, in their
original insertion order. -/
theorem C6_fifo_amended (max : Nat) (msgs : List ChatMessage)
    (hmax : 1 ≤ max) (hn : max < msgs.length) :
    (msgs.foldl add_message { max_messages := max, messages := [] }).messages =
        msgs.drop (msgs.length - max) ∧
      (msgs.foldl add_message { max_messages := max, messages := [] }).messages.length
        = max := by
  have h := foldl_add_message max hmax msgs [] (by simp)
  simp only [List.nil_append] at h
  refine ⟨h, ?_⟩
  rw [h, List.length_drop]
  omega

/-- C6 witness: three messages into a 2-bounded history keep the last two. -/
theorem C6_fifo_witness :
    (([({ role := "user", content := "a", timestamp := 0 } : ChatMessage),
       { role := "user", content := "b", timestamp := 1 },
       { role := "user", content := "c", timestamp := 2 }]).foldl
        add_message { max_messages := 2, messages := [] }).messages =
      [({ role := "user", content := "b", timestamp := 1 } : ChatMessage),
       { role := "user", content := "c", timestamp := 2 }] := by
  have h := (C6_fifo_amended 2
    [({ role := "user", content := "a", timestamp := 0 } : ChatMessage),
     { role := "user", content := "b", timestamp := 1 },
     { role := "user", content := "c", timestamp := 2 }] (by decide) (by decide)).1
  rw [h]
  decide

/-! ## Claim C9 — input validation outcomes -/

/-- C9 counterexample: a whitespace-only string one character over the
configured maximum length (here `maxLen = 5` and six spaces) takes the
empty-input branch, which `validate_input` checks first, not the too-long
branch the claim predicts for every string one character over the limit. -/
theorem C9_validate_counterexample :
    validate_input 5 "      " = { valid := false, error := some "Input cannot be empty" } ∧
    validate_input 5 "      " ≠
      { valid := false, error := some "Input too long (max 5 characters)" } ∧
    ("      " : String).length = 5 + 1 := by
  decide

/-- C9 (amended): empty or whitespace-only input is rejected as empty (this
check runs before the length check); a string one character over the limit
that is not whitespace-only is rejected as too long; a string within the
limit that is not whitespace-only and contains a full
`<script...>...</script>` element is rejected as unsafe; a normal sentence
is accepted. -/
theorem C9_validate_amended (maxLen : Nat) (s : String) :
    (pyStrip s = "" →
       validate_input maxLen s = { valid := false, error := some "Input cannot be empty" }) ∧
    (pyStrip s ≠ "" → s.length = maxLen + 1 →
       validate_input maxLen s =
         { valid := false
           error := some ("Input too long (max " ++ toString maxLen ++ " characters)") }) ∧
    (pyStrip s ≠ "" → s.length ≤ maxLen → hasScriptTag (lowerStr s).toList = true →
       validate_input maxLen s =
         { valid := false, error := some "Input contains potentially unsafe content" }) ∧
    validate_input 10000 "This is a normal sentence." = { valid := true, error := none } := by
  refine ⟨?_, ?_, ?_, by decide⟩
  · intro hs
    simp [validate_input, hs]
  · intro hs hlen
    have hs0 : s ≠ "" := by
      intro h; apply hs; rw [h]; decide
    unfold validate_input
    rw [if_neg (by simp [hs, hs0]), if_pos (by omega)]
  · intro hs hlen hscript
    have hs0 : s ≠ "" := by
      intro h; apply hs; rw [h]; decide
    have hsp : hasSuspiciousPattern s = true := by
      have hd : hasScriptTag (lowerStr s).data = true := hscript
      simp [hasSuspiciousPattern, hd]
    unfold validate_input
    rw [if_neg (by simp [hs, hs0]), if_neg (by omega), if_pos hsp]

/-- C9 witness: the amended theorem applied to an overlong string, a
script-bearing string, and the empty string. -/
theorem C9_validate_witness :
    validate_input 20 "abcdefghijklmnopqrstu" =
      { valid := false, error := some "Input too long (max 20 characters)" } ∧
    validate_input 100 "check <script>alert(1)</script>" =
      { valid := false, error := some "Input contains potentially unsafe content" } ∧
    validate_input 7 "" = { valid := false, error := some "Input cannot be empty" } :=
  ⟨(C9_validate_amended 20 "abcdefghijklmnopqrstu").2.1 (by decide) (by decide),
   (C9_validate_amended 100 "check <script>alert(1)</script>").2.2.1
     (by decide) (by decide) (by decide),
   (C9_validate_amended 7 "").1 (by decide)⟩

/-! ## Claim C5 — sliding-window rate limiter -/

/-- The pruned window `check_rate_limit` works with for one identifier. -/
def prunedCalls (rl : RateLimiter) (identifier : String) (now : Nat) : List Nat :=
  pruneWindow rl.timeWindow now (callsFor rl.calls identifier)

/-- Updating one identifier's list leaves exactly that list behind. -/
lemma callsFor_setCalls (calls : List (String × List Nat)) (identifier : String)
    (v : List Nat) : callsFor (setCalls calls identifier v) identifier = v := by
  induction calls with
  | nil => simp [setCalls, callsFor]
  | cons p t ih =>
    simp only [setCalls]
    by_cases hp : (p.1 == identifier) = true
    · rw [if_pos hp]
      unfold callsFor
      simp only [List.find?]
      rw [show ((identifier, v).1 == identifier) = true from by simp]
    · rw [if_neg hp]
      unfold callsFor
      simp only [List.find?]
      rw [Bool.not_eq_true] at hp
      rw [hp]
      exact ih

/-- `foldl min` yields a lower bound of the seed and all elements. -/
lemma foldl_min_le (l : List Nat) : ∀ a : Nat,
    l.foldl min a ≤ a ∧ ∀ t ∈ l, l.foldl min a ≤ t := by
  induction l with
  | nil => intro a; simp
  | cons b t ih =>
    intro a
    have h := ih (min a b)
    refine ⟨le_trans h.1 (min_le_left a b), ?_⟩
    intro x hx
    rcases List.mem_cons.mp hx with h1 | h1
    · subst h1; exact le_trans h.1 (min_le_right a _)
    · simpa using h.2 x h1

/-- `foldl min` returns the seed or an element. -/
lemma foldl_min_mem (l : List Nat) : ∀ a : Nat,
    l.foldl min a = a ∨ l.foldl min a ∈ l := by
  induction l with
  | nil => intro a; simp
  | cons b t ih =>
    intro a
    rcases ih (min a b) with h | h
    · rw [List.foldl_cons, h]
      rcases Nat.le_total a b with hab | hab
      · left; exact Nat.min_eq_left hab
      · right; rw [Nat.min_eq_right hab]; exact List.mem_cons_self b t
    · right
      rw [List.foldl_cons]
      exact List.mem_cons_of_mem b h

/-- Characterization of `check_rate_limit` for an enabled limiter. -/
lemma check_rate_limit_enabled (rl : RateLimiter) (identifier : String) (now : Nat)
    (hen : rl.enabled = true) :
    check_rate_limit rl identifier now =
      (if rl.maxCalls ≤ (prunedCalls rl identifier now).length then
        ({ allowed := false
           retry_after := (rl.timeWindow : Int) -
             ((now : Int) - (((prunedCalls rl identifier now).min?.getD 0 : Nat) : Int)) },
         { rl with calls := setCalls rl.calls identifier (prunedCalls rl identifier now) })
      else
        ({ allowed := true, retry_after := 0 },
         { rl with calls := setCalls rl.calls identifier (prunedCalls rl identifier now ++ [now]) })) := by
  unfold check_rate_limit
  rw [hen]
  rfl

/-- C5: the enabled rate limiter prunes every timestamp older than
`now - period` from the stored window, admits and records `now` when the
pruned window has fewer than `maxCalls` entries, and otherwise denies with
`retry_after = period - (now - oldest)` for the oldest surviving timestamp,
which is always positive. -/
theorem C5_rate_limit_behavior (rl : RateLimiter) (identifier : String) (now : Nat)
    (hen : rl.enabled = true) (hmax : 1 ≤ rl.maxCalls) :
    (∀ t ∈ callsFor rl.calls identifier, (t : Int) < (now : Int) - rl.timeWindow →
        t ∉ callsFor (check_rate_limit rl identifier now).2.calls identifier) ∧
    ((prunedCalls rl identifier now).length < rl.maxCalls →
        (check_rate_limit rl identifier now).1.allowed = true ∧
        callsFor (check_rate_limit rl identifier now).2.calls identifier =
          prunedCalls rl identifier now ++ [now]) ∧
    (rl.maxCalls ≤ (prunedCalls rl identifier now).length →
        (check_rate_limit rl identifier now).1.allowed = false ∧
        ∃ oldest, oldest ∈ prunedCalls rl identifier now ∧
          (∀ t ∈ prunedCalls rl identifier now, oldest ≤ t) ∧
          (check_rate_limit rl identifier now).1.retry_after =
            (rl.timeWindow : Int) - ((now : Int) - (oldest : Int)) ∧
          0 < (check_rate_limit rl identifier now).1.retry_after) := by
  have hmem_pruned : ∀ t ∈ prunedCalls rl identifier now,
      (now : Int) - rl.timeWindow < (t : Int) := by
    intro t ht
    simp only [prunedCalls, pruneWindow] at ht
    have := List.of_mem_filter ht
    simpa using this
  rw [check_rate_limit_enabled rl identifier now hen]
  by_cases hc : rl.maxCalls ≤ (prunedCalls rl identifier now).length
  · rw [if_pos hc]
    refine ⟨?_, ?_, ?_⟩
    · intro t ht hold
      dsimp only
      rw [callsFor_setCalls]
      intro hmem
      have := hmem_pruned t hmem
      omega
    · intro h
      omega
    · intro _
      refine ⟨rfl, ?_⟩
      rcases hLc : prunedCalls rl identifier now with _ | ⟨p, rest⟩
      · rw [hLc] at hc
        simp at hc
        omega
      · rw [hLc] at hmem_pruned
        have hmin : ((p :: rest).min?.getD 0 : Nat) = rest.foldl min p := rfl
        have hmem : rest.foldl min p ∈ p :: rest := by
          rcases foldl_min_mem rest p with h | h
          · rw [h]; exact List.mem_cons_self p rest
          · exact List.mem_cons_of_mem p h
        refine ⟨rest.foldl min p, hmem, ?_, ?_, ?_⟩
        · intro t ht
          rcases List.mem_cons.mp ht with h1 | h1
          · rw [h1]; exact (foldl_min_le rest p).1
          · exact (foldl_min_le rest p).2 t h1
        · dsimp only
          rw [hmin]
        · dsimp only
          rw [hmin]
          have := hmem_pruned _ hmem
          omega
  · rw [if_neg hc]
    refine ⟨?_, ?_, ?_⟩
    · intro t ht hold
      dsimp only
      rw [callsFor_setCalls]
      intro hmem
      rcases List.mem_append.mp hmem with h1 | h1
      · have := hmem_pruned t h1
        omega
      · have h2 : t = now := by simpa using h1
        omega
    · intro _
      dsimp only
      exact ⟨rfl, callsFor_setCalls _ _ _⟩
    · intro h
      omega

/-- C5 witness: with `maxCalls = 3, period = 60` and three admitted calls at
times 0, 1, 2, a fourth call at time 30 is denied with positive
`retry_after`, and a call at time 61 is admitted again. -/
theorem C5_rate_limit_witness :
    (check_rate_limit ⟨3, 60, [("s", [0, 1, 2])], true⟩ "s" 30).1.allowed = false ∧
    0 < (check_rate_limit ⟨3, 60, [("s", [0, 1, 2])], true⟩ "s" 30).1.retry_after ∧
    (check_rate_limit ⟨3, 60, [("s", [0, 1, 2])], true⟩ "s" 61).1.allowed = true := by
  have h30 := C5_rate_limit_behavior ⟨3, 60, [("s", [0, 1, 2])], true⟩ "s" 30 rfl (by decide)
  have h61 := C5_rate_limit_behavior ⟨3, 60, [("s", [0, 1, 2])], true⟩ "s" 61 rfl (by decide)
  refine ⟨(h30.2.2 (by decide)).1, ?_, (h61.2.1 (by decide)).1⟩
  obtain ⟨o, _, _, _, hpos⟩ := (h30.2.2 (by decide)).2
  exact hpos

/-! ## Claim C4 — TTL + LRU response cache -/

/-- Head entry with a matching key is found. -/
lemma findEntry_cons_pos (e : CacheEntry) (t : List CacheEntry) (k : String)
    (h : (e.key == k) = true) : findEntry (e :: t) k = some e := by
  unfold findEntry
  exact List.find?_cons_of_pos t h

/-- Head entry with a different key is skipped. -/
lemma findEntry_cons_neg (e : CacheEntry) (t : List CacheEntry) (k : String)
    (h : (e.key == k) = false) : findEntry (e :: t) k = findEntry t k := by
  unfold findEntry
  exact List.find?_cons_of_neg t (by simp [h])

/-- Setting a key makes it present with the new value and timestamp. -/
lemma findEntry_dictSetEntry_self (l : List CacheEntry) (k v : String) (now : Nat) :
    findEntry (dictSetEntry l k v now) k =
      some { key := k, value := v, timestamp := now } := by
  induction l with
  | nil =>
    simp only [dictSetEntry]
    exact findEntry_cons_pos _ _ _ (by simp)
  | cons e t ih =>
    by_cases he : (e.key == k) = true
    · simp only [dictSetEntry, he, if_true]
      exact findEntry_cons_pos _ _ _ (by simp)
    · simp only [dictSetEntry, he]
      rw [if_neg (by simp_all)]
      rw [findEntry_cons_neg _ _ _ (by simpa using he)]
      exact ih

/-- Setting one key leaves an absent different key absent. -/
lemma findEntry_dictSetEntry_ne (l : List CacheEntry) (k k2 v : String) (now : Nat)
    (hne : k2 ≠ k) (habs : findEntry l k2 = none) :
    findEntry (dictSetEntry l k v now) k2 = none := by
  induction l with
  | nil =>
    simp only [dictSetEntry]
    rw [findEntry_cons_neg _ _ _ (by simp [Ne.symm hne])]
    exact habs
  | cons e t ih =>
    by_cases hek : (e.key == k2) = true
    · rw [findEntry_cons_pos _ _ _ hek] at habs
      exact absurd habs (by simp)
    · rw [Bool.not_eq_true] at hek
      rw [findEntry_cons_neg _ _ _ hek] at habs
      by_cases he : (e.key == k) = true
      · simp only [dictSetEntry, he, if_true]
        rw [findEntry_cons_neg _ _ _ (by simp [Ne.symm hne])]
        exact habs
      · simp only [dictSetEntry, he]
        rw [if_neg (by simp_all)]
        rw [findEntry_cons_neg _ _ _ hek]
        exact ih habs

/-- `dictSetEntry` grows the list by at most one entry. -/
lemma dictSetEntry_length_le (l : List CacheEntry) (k v : String) (now : Nat) :
    (dictSetEntry l k v now).length ≤ l.length + 1 := by
  induction l with
  | nil => simp [dictSetEntry]
  | cons e t ih =>
    simp only [dictSetEntry]
    split
    · simp
    · simpa using Nat.succ_le_succ ih

/-- A key that occurs nowhere in a list is not found. -/
lemma findEntry_eq_none_of_not_mem (l : List CacheEntry) (k : String)
    (h : ∀ e ∈ l, e.key ≠ k) : findEntry l k = none := by
  unfold findEntry
  rw [List.find?_eq_none]
  intro e he
  simp [h e he]

/-- With pairwise-distinct keys, erasing a key removes its only occurrence. -/
lemma findEntry_removeKey_self (l : List CacheEntry) (k : String)
    (hnd : (l.map (fun e => e.key)).Nodup) :
    findEntry (removeKey l k) k = none := by
  induction l with
  | nil => simp [removeKey, findEntry]
  | cons e t ih =>
    have hnd2 : (∀ x ∈ t, ¬x.key = e.key) ∧ (t.map (fun e => e.key)).Nodup := by
      simpa using hnd
    by_cases he : (e.key == k) = true
    · have hek : e.key = k := by simpa using he
      simp only [removeKey, List.eraseP_cons, he, cond_true]
      apply findEntry_eq_none_of_not_mem
      intro e2 he2 hk
      exact hnd2.1 e2 he2 (hk.trans hek.symm)
    · rw [Bool.not_eq_true] at he
      simp only [removeKey, List.eraseP_cons, he, cond_false]
      rw [findEntry_cons_neg _ _ _ he]
      exact ih hnd2.2

/-- Characterization of `ResponseCache.get` on an enabled cache. -/
lemma cache_get_enabled (rc : ResponseCache) (user_input : String)
    (context : Option String) (now : Nat) (hen : rc.enabled = true) :
    cache_get rc user_input context now =
      (match findEntry rc.entries (generate_key user_input context) with
       | some e =>
         if now - e.timestamp < rc.ttl then
           (some e.value,
            { rc with entries := moveToEnd rc.entries (generate_key user_input context)
                      hits := rc.hits + 1 })
         else
           (none,
            { rc with entries := removeKey rc.entries (generate_key user_input context)
                      misses := rc.misses + 1 })
       | none => (none, { rc with misses := rc.misses + 1 })) := by
  unfold cache_get
  rw [hen]
  rfl

/-- Characterization of `ResponseCache.set` on an enabled cache. -/
lemma cache_set_enabled (rc : ResponseCache) (user_input response : String)
    (context : Option String) (now : Nat) (hen : rc.enabled = true) :
    cache_set rc user_input response context now =
      { rc with entries := dictSetEntry (if rc.max_size ≤ rc.entries.length then rc.entries.drop 1 else rc.entries) (generate_key user_input context) response now } := by
  unfold cache_set
  rw [hen]
  rfl

/-- C4: on an enabled cache (constructed instances always have
`max_size ≥ 1` and `ttl ≥ 1`, since falsy constructor arguments are
replaced by the config defaults) with pairwise-distinct keys: a `set`
followed by an immediate `get` of the same key returns the stored value;
once `ttl` seconds have elapsed since insertion a `get` misses and eagerly
evicts the entry; a fresh `get` moves the entry to the most-recently-used
end; a `set` at capacity drops the entry at the least-recently-used end;
and `set` never grows the cache beyond `max_size`. -/
theorem C4_response_cache_behavior (rc : ResponseCache) (input response : String)
    (context : Option String) (now : Nat)
    (hen : rc.enabled = true) (hmax : 1 ≤ rc.max_size) (httl : 0 < rc.ttl)
    (hnd : (rc.entries.map (fun e => e.key)).Nodup) :
    ((cache_get (cache_set rc input response context now) input context now).1 =
        some response) ∧
    (∀ e, findEntry rc.entries (generate_key input context) = some e →
       e.timestamp + rc.ttl ≤ now →
       (cache_get rc input context now).1 = none ∧
       findEntry (cache_get rc input context now).2.entries
         (generate_key input context) = none) ∧
    (∀ e, findEntry rc.entries (generate_key input context) = some e →
       now - e.timestamp < rc.ttl →
       (cache_get rc input context now).1 = some e.value ∧
       (cache_get rc input context now).2.entries =
         removeKey rc.entries (generate_key input context) ++ [e]) ∧
    (rc.entries.length = rc.max_size →
       ∀ e0, rc.entries.head? = some e0 → e0.key ≠ generate_key input context →
         findEntry (cache_set rc input response context now).entries e0.key = none) ∧
    (rc.entries.length ≤ rc.max_size →
       (cache_set rc input response context now).entries.length ≤ rc.max_size) := by
  refine ⟨?_, ?_, ?_, ?_, ?_⟩
  · rw [cache_set_enabled rc input response context now hen]
    rw [cache_get_enabled _ input context now (by exact hen)]
    dsimp only
    rw [findEntry_dictSetEntry_self]
    dsimp only
    simp only [Nat.sub_self]
    rw [if_pos httl]
  · intro e he hexp
    rw [cache_get_enabled rc input context now hen, he]
    dsimp only
    rw [if_neg (by omega)]
    exact ⟨rfl, findEntry_removeKey_self rc.entries _ hnd⟩
  · intro e he hfresh
    rw [cache_get_enabled rc input context now hen, he]
    dsimp only
    rw [if_pos hfresh]
    refine ⟨rfl, ?_⟩
    dsimp only
    simp only [moveToEnd, he]
  · intro hlen e0 hhead hne
    rw [cache_set_enabled rc input response context now hen]
    dsimp only
    rw [if_pos (by omega)]
    rcases hent : rc.entries with _ | ⟨e1, rest⟩
    · rw [hent] at hhead; simp at hhead
    · rw [hent] at hhead
      simp only [List.head?] at hhead
      have he1 : e1 = e0 := by injection hhead
      rw [List.drop_one, List.tail_cons]
      apply findEntry_dictSetEntry_ne _ _ _ _ _ hne
      apply findEntry_eq_none_of_not_mem
      intro e2 he2 hk
      rw [hent] at hnd
      have hnd2 : (∀ x ∈ rest, ¬x.key = e1.key) ∧ (rest.map (fun e => e.key)).Nodup := by
        simpa using hnd
      exact hnd2.1 e2 he2 (by rw [hk, he1])
  · intro hlen
    rw [cache_set_enabled rc input response context now hen]
    dsimp only
    by_cases hcap : rc.max_size ≤ rc.entries.length
    · rw [if_pos hcap]
      have h1 := dictSetEntry_length_le (rc.entries.drop 1)
        (generate_key input context) response now
      have h2 : (rc.entries.drop 1).length = rc.entries.length - 1 := by
        simp [List.length_drop]
      omega
    · rw [if_neg hcap]
      have h1 := dictSetEntry_length_le rc.entries
        (generate_key input context) response now
      omega

/-- C4 witness: a concrete enabled cache exercising the round-trip clause. -/
theorem C4_response_cache_witness :
    (cache_get (cache_set ⟨2, 10, true, [], 0, 0⟩ "query" "reply" (some "0") 5)
        "query" (some "0") 5).1 = some "reply" :=
  (C4_response_cache_behavior ⟨2, 10, true, [], 0, 0⟩ "query" "reply" (some "0") 5
    rfl (by decide) (by decide) (by decide)).1

/-! ## The grading pipeline — shared lemmas for C1, C2 and C7 -/

/-- The note `_synthesize_response` appends: present exactly when the data
context exists (a data manager ran) and has relevant interactions. -/
def contextNote (d : Option Nat) : String :=
  match d with
  | some n =>
    if 0 < n then "\n\n[Context: Based on " ++ toString n ++ " previous interactions]"
    else ""
  | none => ""

/-- Inserting a different key keeps the head of an agent-responses dict. -/
lemma dictInsert_head_ne (l : List (String × String)) (k v : String)
    (p : String × String) (hh : l.head? = some p) (hp : (p.1 == k) = false) :
    (dictInsert l k v).head? = some p := by
  cases l with
  | nil => simp at hh
  | cons q t =>
    simp only [List.head?, Option.some.injEq] at hh
    simp only [dictInsert]
    rw [if_neg (by rw [hh]; simp [hp])]
    simp [hh]

/-- Looking up a key other than the inserted one is unchanged. -/
lemma dictGet_dictInsert_ne (l : List (String × String)) (k v k2 : String)
    (h : k2 ≠ k) : dictGet (dictInsert l k v) k2 = dictGet l k2 := by
  induction l with
  | nil =>
    simp only [dictInsert, dictGet, List.find?]
    rw [show ((k, v).1 == k2) = false from by simp [Ne.symm h]]
  | cons q t ih =>
    by_cases hq : (q.1 == k) = true
    · simp only [dictInsert, hq, if_true]
      unfold dictGet
      simp only [List.find?]
      rw [show ((k, v).1 == k2) = false from by simp [Ne.symm h],
        show (q.1 == k2) = false from by
          have hqk : q.1 = k := by simpa using hq
          simp [hqk, Ne.symm h]]
    · simp only [dictInsert, hq]
      rw [if_neg (by simp_all)]
      unfold dictGet
      simp only [List.find?]
      cases hq2 : (q.1 == k2) with
      | true => rfl
      | false => exact ih

/-- `_grading_workflow_entry` spelled out. -/
lemma grading_workflow_entry_eq (s : AgentState) :
    grading_workflow_entry s =
      { s with workflow_path := s.workflow_path ++ ["grading_workflow_entry"]
               current_agent := "grading", formatted_output := ""
               additional_notes := "" } := rfl

/-- `_route_to_grading` records its node name whatever the oracle does. -/
lemma route_to_grading_path (env : Env) (s : AgentState) :
    (route_to_grading env s).workflow_path = s.workflow_path ++ ["route_to_grading"] := by
  cases hg : env.agents "grading" with
  | none => simp [route_to_grading, hg]
  | some f =>
    cases hr : f s.user_input with
    | error e => simp [route_to_grading, hg, hr]
    | ok r => simp [route_to_grading, hg, hr]

/-- `_route_to_formatting` records its node name whatever the oracle does. -/
lemma route_to_formatting_path (env : Env) (s : AgentState) :
    (route_to_formatting env s).workflow_path =
      s.workflow_path ++ ["route_to_formatting"] := by
  cases hf : env.agents "formatting" with
  | none => simp [route_to_formatting, hf]
  | some f =>
    cases hr : f ((dictGet s.agent_responses "grading").getD "") with
    | error e => simp [route_to_formatting, hf, hr]
    | ok fo => simp [route_to_formatting, hf, hr]

/-- `_route_to_chat_notes` records its node name unconditionally — before
the trigger-keyword test. -/
lemma route_to_chat_notes_path (env : Env) (s : AgentState) :
    (route_to_chat_notes env s).workflow_path =
      s.workflow_path ++ ["route_to_chat_notes"] := by
  by_cases hk : hasNotesKeyword s.user_input = true
  · cases hca : env.agents "chat" with
    | none => simp [route_to_chat_notes, hk, hca]
    | some f =>
      cases hr : f ("Based on this grading result, provide brief additional notes:\n"
          ++ s.formatted_output) with
      | ok notes => simp [route_to_chat_notes, hk, hca, hr]
      | error e => simp [route_to_chat_notes, hk, hca, hr]
  · simp [route_to_chat_notes, hk]

/-- `_route_to_chat_notes` never changes error, formatted output or data
context. -/
lemma route_to_chat_notes_frame (env : Env) (s : AgentState) :
    (route_to_chat_notes env s).error = s.error ∧
    (route_to_chat_notes env s).formatted_output = s.formatted_output ∧
    (route_to_chat_notes env s).data_context = s.data_context := by
  by_cases hk : hasNotesKeyword s.user_input = true
  · cases hca : env.agents "chat" with
    | none => simp [route_to_chat_notes, hk, hca]
    | some f =>
      cases hr : f ("Based on this grading result, provide brief additional notes:\n"
          ++ s.formatted_output) with
      | ok notes => simp [route_to_chat_notes, hk, hca, hr]
      | error e => simp [route_to_chat_notes, hk, hca, hr]
  · simp [route_to_chat_notes, hk]

/-- Without a trigger keyword `_route_to_chat_notes` changes nothing except
recording itself. -/
lemma route_to_chat_notes_no_keyword (env : Env) (s : AgentState)
    (hk : hasNotesKeyword s.user_input = false) :
    route_to_chat_notes env s =
      { s with workflow_path := s.workflow_path ++ ["route_to_chat_notes"]
               current_agent := "chat" } := by
  simp [route_to_chat_notes, hk]

/-- `_route_to_chat_notes` keeps the first recorded agent response first
(the head key is never `"chat"` in the pipeline). -/
lemma route_to_chat_notes_head (env : Env) (s : AgentState) (p : String × String)
    (hh : s.agent_responses.head? = some p) (hp : (p.1 == "chat") = false) :
    (route_to_chat_notes env s).agent_responses.head? = some p := by
  by_cases hk : hasNotesKeyword s.user_input = true
  · cases hca : env.agents "chat" with
    | none => simpa [route_to_chat_notes, hk, hca] using hh
    | some f =>
      cases hr : f ("Based on this grading result, provide brief additional notes:\n"
          ++ s.formatted_output) with
      | ok notes =>
        simp only [route_to_chat_notes, hk, if_true, hca, hr]
        exact dictInsert_head_ne _ _ _ _ hh hp
      | error e => simpa [route_to_chat_notes, hk, hca, hr] using hh
  · simpa [route_to_chat_notes, hk] using hh

/-- `_manage_data` spelled out. -/
lemma manage_data_eq (env : Env) (s : AgentState) :
    manage_data env s = { s with data_context := env.dataCtx } := rfl

/-- `_synthesize_response` returns the FIRST recorded agent response with
the context note appended, and touches nothing else when a response
exists. -/
lemma synthesize_response_head (s : AgentState) (p : String × String)
    (hh : s.agent_responses.head? = some p) :
    (synthesize_response s).response = p.2 ++ contextNote s.data_context ∧
    (synthesize_response s).error = s.error ∧
    (synthesize_response s).formatted_output = s.formatted_output ∧
    (synthesize_response s).workflow_path = s.workflow_path := by
  cases hl : s.agent_responses with
  | nil => rw [hl] at hh; simp at hh
  | cons q t =>
    rw [hl] at hh
    simp only [List.head?, Option.some.injEq] at hh
    obtain ⟨k, v⟩ := q
    cases hd : s.data_context with
    | none =>
      refine ⟨?_, ?_, ?_, ?_⟩ <;>
        simp [synthesize_response, hl, hd, contextNote, ← hh]
    | some n =>
      by_cases hn : 0 < n
      · refine ⟨?_, ?_, ?_, ?_⟩ <;>
          simp [synthesize_response, hl, hd, contextNote, hn, ← hh, String.append_assoc]
      · refine ⟨?_, ?_, ?_, ?_⟩ <;>
          simp [synthesize_response, hl, hd, contextNote, hn, ← hh, String.append_assoc]

/-- The grading branch of the compiled graph, as one function. -/
def gradingPipeline (env : Env) (s : AgentState) : AgentState :=
  synthesize_response (manage_data env (route_to_chat_notes env (route_to_formatting env
    (route_to_grading env (grading_workflow_entry s)))))

/-- `_classify_task` on a successful LLM reply whose validated label is
`label`. -/
lemma classify_task_ok (env : Env) (input raw label : String)
    (henv : pyStrip input ≠ "") (hcls : env.classify = .ok raw)
    (hlab : lowerStr (pyStrip raw) = label)
    (hval : (if (label = "chat" || label = "analysis" || label = "grading"
        || label = "code_review") = true then label else "chat") = label) :
    classify_task env (initialState input) =
      { initialState input with task_classification := label, agent_type := label } := by
  simp only [classify_task, initialState]
  rw [if_neg henv, hcls]
  simp only []
  rw [hlab, hval]

/-- On a grading classification the graph runs the grading pipeline. -/
lemma runGraph_grading_eq (env : Env) (input raw : String)
    (henv : pyStrip input ≠ "") (hcls : env.classify = .ok raw)
    (hlab : lowerStr (pyStrip raw) = "grading") :
    runGraph env (initialState input) =
      gradingPipeline env
        { initialState input with task_classification := "grading"
                                  agent_type := "grading" } := by
  have h1 := classify_task_ok env input raw "grading" henv hcls hlab (by decide)
  unfold runGraph
  rw [h1]
  rfl

/-- `synthesize_response` never touches the workflow path. -/
lemma synthesize_response_path (s : AgentState) :
    (synthesize_response s).workflow_path = s.workflow_path := by
  unfold synthesize_response
  cases hl : s.agent_responses with
  | nil => rfl
  | cons q t => obtain ⟨k, v⟩ := q; rfl

/-- `synthesize_response` never touches the additional notes or responses. -/
lemma synthesize_response_frame (s : AgentState) :
    (synthesize_response s).additional_notes = s.additional_notes ∧
    (synthesize_response s).agent_responses = s.agent_responses := by
  unfold synthesize_response
  cases hl : s.agent_responses with
  | nil => exact ⟨rfl, rfl⟩
  | cons q t => obtain ⟨k, v⟩ := q; exact ⟨rfl, rfl⟩

/-- The grading pipeline records exactly its four nodes, in order, whatever
the agent oracles do. -/
lemma gradingPipeline_path (env : Env) (s : AgentState) :
    (gradingPipeline env s).workflow_path =
      s.workflow_path ++ ["grading_workflow_entry", "route_to_grading",
        "route_to_formatting", "route_to_chat_notes"] := by
  unfold gradingPipeline
  rw [synthesize_response_path]
  rw [show (manage_data env (route_to_chat_notes env (route_to_formatting env
      (route_to_grading env (grading_workflow_entry s))))).workflow_path =
    (route_to_chat_notes env (route_to_formatting env
      (route_to_grading env (grading_workflow_entry s)))).workflow_path from rfl]
  rw [route_to_chat_notes_path, route_to_formatting_path, route_to_grading_path,
    grading_workflow_entry_eq]
  simp

/-- When the grading agent is registered and succeeds, the pipeline's
synthesized response is the raw grading output plus the context note —
whatever the formatting and chat oracles do. -/
lemma gradingPipeline_response (env : Env) (s : AgentState)
    (g : String → Except String String) (gOut : String)
    (hg : env.agents "grading" = some g) (hgo : g s.user_input = .ok gOut)
    (hresp : s.agent_responses = []) :
    (gradingPipeline env s).response = gOut ++ contextNote env.dataCtx := by
  have hs3 : (route_to_grading env (grading_workflow_entry s)).agent_responses
      = [("grading", gOut)] := by
    simp [route_to_grading, grading_workflow_entry, hg, hgo, hresp, dictInsert]
  have hdict : ((dictGet (route_to_grading env (grading_workflow_entry s)).agent_responses
      "grading").getD "") = gOut := by
    rw [hs3]; simp [dictGet, List.find?]
  have hhead4 : (route_to_formatting env (route_to_grading env
      (grading_workflow_entry s))).agent_responses.head? = some ("grading", gOut) := by
    cases hf : env.agents "formatting" with
    | none => simp [route_to_formatting, hf, hs3]
    | some f =>
      cases hr : f gOut with
      | error e => simp [route_to_formatting, hf, hr, hs3, dictGet, List.find?]
      | ok fo => simp [route_to_formatting, hf, hr, hs3, dictGet, List.find?, dictInsert]
  have hhead5 := route_to_chat_notes_head env _ ("grading", gOut) hhead4 rfl
  have hfinal := synthesize_response_head
    (manage_data env (route_to_chat_notes env (route_to_formatting env
      (route_to_grading env (grading_workflow_entry s))))) ("grading", gOut)
    (by simpa [manage_data_eq] using hhead5)
  unfold gradingPipeline
  rw [hfinal.1]
  rfl
/-! ## Claim C1 — what Synthesize returns for the grading pipeline -/

/-- A concrete environment: the LLM classifies as grading, the grading
agent returns a raw report, the formatting agent returns a different
formatted table, no data manager, no trigger keywords in the input. -/
def envC1 : Env :=
  { classify := .ok "grading"
    agents := fun a =>
      if a = "grading" then some (fun _ => .ok "GRADING RAW OUTPUT")
      else if a = "formatting" then some (fun _ => .ok "FORMATTED TABLE")
      else none
    masterLLM := .ok "unused"
    dataCtx := none
    maxInputLength := 10000 }

/-- C1 counterexample: in the grading pipeline the Synthesize step takes
the FIRST recorded agent response — the raw grading output — so the final
response differs from the Formatting step's output. -/
theorem C1_synthesize_counterexample :
    (runGraph envC1 (initialState "Grade this essay: The cat sat.")).response =
        "GRADING RAW OUTPUT" ∧
    (runGraph envC1 (initialState "Grade this essay: The cat sat.")).formatted_output =
        "FORMATTED TABLE" ∧
    (runGraph envC1 (initialState "Grade this essay: The cat sat.")).response ≠
      (runGraph envC1 (initialState "Grade this essay: The cat sat.")).formatted_output := by
  refine ⟨by decide, by decide, by decide⟩

/-- C1 (amended): for every completed grading-pipeline request whose
grading agent is registered and succeeds, the Synthesize step's response is
the first recorded agent response — the GRADING step's raw output, not the
Formatting step's output — with the context note appended when relevant
historical interactions were found and the content otherwise unchanged. -/
theorem C1_synthesize_amended (env : Env) (input raw : String)
    (g : String → Except String String) (gOut : String)
    (henv : pyStrip input ≠ "") (hcls : env.classify = .ok raw)
    (hlab : lowerStr (pyStrip raw) = "grading")
    (hg : env.agents "grading" = some g) (hgo : g input = .ok gOut) :
    (runGraph env (initialState input)).response = gOut ++ contextNote env.dataCtx := by
  rw [runGraph_grading_eq env input raw henv hcls hlab]
  exact gradingPipeline_response env _ g gOut hg hgo rfl

/-- C1 witness: the amended theorem at the concrete environment. -/
theorem C1_synthesize_witness :
    (runGraph envC1 (initialState "Grade this essay: The cat sat.")).response =
      "GRADING RAW OUTPUT" ++ contextNote none :=
  C1_synthesize_amended envC1 "Grade this essay: The cat sat." "grading" _
    "GRADING RAW OUTPUT" (by decide) rfl (by decide) rfl rfl

/-! ## Claim C2 — the recorded workflow path -/

/-- `_route_to_grading` with no registered grading agent. -/
lemma route_to_grading_none (env : Env) (s : AgentState)
    (hg : env.agents "grading" = none) :
    route_to_grading env s =
      { s with workflow_path := s.workflow_path ++ ["route_to_grading"]
               current_agent := "grading", error := "Grading agent not available" } := by
  simp [route_to_grading, hg]

/-- `_route_to_grading` on a successful grading call. -/
lemma route_to_grading_ok (env : Env) (s : AgentState)
    (g : String → Except String String) (r : String)
    (hg : env.agents "grading" = some g) (hr : g s.user_input = .ok r) :
    route_to_grading env s =
      { s with workflow_path := s.workflow_path ++ ["route_to_grading"]
               current_agent := "grading"
               agent_responses := dictInsert s.agent_responses "grading" r } := by
  simp [route_to_grading, hg, hr]

/-- `_route_to_formatting` with no registered formatting agent. -/
lemma route_to_formatting_none (env : Env) (s : AgentState)
    (hf : env.agents "formatting" = none) :
    route_to_formatting env s =
      { s with workflow_path := s.workflow_path ++ ["route_to_formatting"]
               current_agent := "formatting"
               formatted_output := (dictGet s.agent_responses "grading").getD "" } := by
  simp [route_to_formatting, hf]

/-- `_route_to_formatting` when the formatting call raises. -/
lemma route_to_formatting_err (env : Env) (s : AgentState)
    (f : String → Except String String) (e : String)
    (hf : env.agents "formatting" = some f)
    (he : f ((dictGet s.agent_responses "grading").getD "") = .error e) :
    route_to_formatting env s =
      { s with workflow_path := s.workflow_path ++ ["route_to_formatting"]
               current_agent := "formatting"
               error := "Error in formatting agent: " ++ e } := by
  simp [route_to_formatting, hf, he]

/-- `_route_to_formatting` on a successful formatting call. -/
lemma route_to_formatting_ok (env : Env) (s : AgentState)
    (f : String → Except String String) (fo : String)
    (hf : env.agents "formatting" = some f)
    (hok : f ((dictGet s.agent_responses "grading").getD "") = .ok fo) :
    route_to_formatting env s =
      { s with workflow_path := s.workflow_path ++ ["route_to_formatting"]
               current_agent := "formatting", formatted_output := fo
               agent_responses := dictInsert s.agent_responses "formatting" fo } := by
  simp [route_to_formatting, hf, hok]

/-- `_route_to_agent` never touches the workflow path. -/
lemma route_to_agent_path (env : Env) (s : AgentState) :
    (route_to_agent env s).workflow_path = s.workflow_path := by
  cases ha : env.agents s.agent_type with
  | some f =>
    cases hr : f s.user_input with
    | ok r => simp [route_to_agent, ha, hr]
    | error e => simp [route_to_agent, ha, hr]
  | none =>
    cases hm : env.masterLLM with
    | ok r => simp [route_to_agent, ha, hm]
    | error e => simp [route_to_agent, ha, hm]

/-- On a chat classification the graph runs the standard workflow. -/
lemma runGraph_standard_eq (env : Env) (input raw : String)
    (henv : pyStrip input ≠ "") (hcls : env.classify = .ok raw)
    (hlab : lowerStr (pyStrip raw) = "chat") :
    runGraph env (initialState input) =
      (let s1 := { initialState input with task_classification := "chat"
                                           agent_type := "chat" }
       let s2 := route_to_agent env s1
       if should_manage_data env s2 = "error" then handle_error s2
       else if should_manage_data env s2 = "data" then
         synthesize_response (manage_data env s2)
       else synthesize_response s2) := by
  have h1 := classify_task_ok env input raw "chat" henv hcls hlab (by decide)
  unfold runGraph
  rw [h1]
  rfl

/-- The standard-workflow tail never touches the workflow path. -/
lemma standard_tail_path (env : Env) (s : AgentState) :
    (if should_manage_data env (route_to_agent env s) = "error" then
        handle_error (route_to_agent env s)
      else if should_manage_data env (route_to_agent env s) = "data" then
        synthesize_response (manage_data env (route_to_agent env s))
      else synthesize_response (route_to_agent env s)).workflow_path
      = s.workflow_path := by
  by_cases h2 : should_manage_data env (route_to_agent env s) = "error"
  · rw [if_pos h2]
    exact route_to_agent_path env s
  · rw [if_neg h2]
    by_cases h3 : should_manage_data env (route_to_agent env s) = "data"
    · rw [if_pos h3, synthesize_response_path]
      exact route_to_agent_path env s
    · rw [if_neg h3, synthesize_response_path]
      exact route_to_agent_path env s

/-- Chat-key lookups pass through `_route_to_grading` untouched. -/
lemma route_to_grading_chat_resp (env : Env) (s : AgentState) :
    dictGet (route_to_grading env s).agent_responses "chat" =
      dictGet s.agent_responses "chat" := by
  cases hg : env.agents "grading" with
  | none => simp [route_to_grading, hg]
  | some f =>
    cases hr : f s.user_input with
    | error e => simp [route_to_grading, hg, hr]
    | ok r =>
      simp only [route_to_grading, hg, hr]
      exact dictGet_dictInsert_ne _ _ _ _ (by decide)

/-- Chat-key lookups pass through `_route_to_formatting` untouched. -/
lemma route_to_formatting_chat_resp (env : Env) (s : AgentState) :
    dictGet (route_to_formatting env s).agent_responses "chat" =
      dictGet s.agent_responses "chat" := by
  cases hf : env.agents "formatting" with
  | none => simp [route_to_formatting, hf]
  | some f =>
    cases hr : f ((dictGet s.agent_responses "grading").getD "") with
    | error e => simp [route_to_formatting, hf, hr]
    | ok fo =>
      simp only [route_to_formatting, hf, hr]
      exact dictGet_dictInsert_ne _ _ _ _ (by decide)

/-- `_route_to_grading` never touches the additional notes or user input. -/
lemma route_to_grading_frame (env : Env) (s : AgentState) :
    (route_to_grading env s).additional_notes = s.additional_notes ∧
    (route_to_grading env s).user_input = s.user_input ∧
    (route_to_grading env s).formatted_output = s.formatted_output := by
  cases hg : env.agents "grading" with
  | none => simp [route_to_grading, hg]
  | some f =>
    cases hr : f s.user_input with
    | error e => simp [route_to_grading, hg, hr]
    | ok r => simp [route_to_grading, hg, hr]

/-- `_route_to_formatting` never touches the additional notes or user
input. -/
lemma route_to_formatting_frame (env : Env) (s : AgentState) :
    (route_to_formatting env s).additional_notes = s.additional_notes ∧
    (route_to_formatting env s).user_input = s.user_input := by
  cases hf : env.agents "formatting" with
  | none => simp [route_to_formatting, hf]
  | some f =>
    cases hr : f ((dictGet s.agent_responses "grading").getD "") with
    | error e => simp [route_to_formatting, hf, hr]
    | ok fo => simp [route_to_formatting, hf, hr]

/-- With no trigger keyword, the pipeline produces no chat notes: the notes
stay empty and no `"chat"` response is recorded. -/
lemma gradingPipeline_no_keyword (env : Env) (s : AgentState)
    (hk : hasNotesKeyword s.user_input = false) (hresp : s.agent_responses = []) :
    (gradingPipeline env s).additional_notes = "" ∧
    dictGet (gradingPipeline env s).agent_responses "chat" = none := by
  have hk4 : hasNotesKeyword (route_to_formatting env (route_to_grading env
      (grading_workflow_entry s))).user_input = false := by
    rw [(route_to_formatting_frame env _).2, (route_to_grading_frame env _).2.1]
    exact hk
  unfold gradingPipeline
  rw [route_to_chat_notes_no_keyword _ _ hk4]
  constructor
  · rw [(synthesize_response_frame _).1]
    show (route_to_formatting env (route_to_grading env
      (grading_workflow_entry s))).additional_notes = ""
    rw [(route_to_formatting_frame env _).1, (route_to_grading_frame env _).1]
    rfl
  · rw [(synthesize_response_frame _).2]
    show dictGet (route_to_formatting env (route_to_grading env
      (grading_workflow_entry s))).agent_responses "chat" = none
    rw [route_to_formatting_chat_resp, route_to_grading_chat_resp]
    show dictGet s.agent_responses "chat" = none
    rw [hresp]
    rfl

/-- C2 counterexample: an input classified as grading with none of the
trigger keywords still records `route_to_chat_notes` in its workflow path —
the node runs unconditionally; the keywords only gate note generation. -/
theorem C2_workflow_counterexample :
    hasNotesKeyword "Grade this essay: The cat sat." = false ∧
    "route_to_chat_notes" ∈
      (runGraph envC1 (initialState "Grade this essay: The cat sat.")).workflow_path := by
  refine ⟨by decide, by decide⟩

/-- C2 (amended): for every input classified as grading the recorded
workflow path is exactly `grading_workflow_entry, route_to_grading,
route_to_formatting, route_to_chat_notes` in that order —
`route_to_chat_notes` always runs; the trigger keywords only decide whether
it generates notes (without them the notes stay empty and no chat response
is recorded).  For an input classified as chat none of the grading-only
nodes run (the workflow path stays empty). -/
theorem C2_workflow_amended (env : Env) (input raw : String)
    (henv : pyStrip input ≠ "") (hcls : env.classify = .ok raw) :
    (lowerStr (pyStrip raw) = "grading" →
       (runGraph env (initialState input)).workflow_path =
         ["grading_workflow_entry", "route_to_grading", "route_to_formatting",
          "route_to_chat_notes"] ∧
       (hasNotesKeyword input = false →
          (runGraph env (initialState input)).additional_notes = "" ∧
          dictGet (runGraph env (initialState input)).agent_responses "chat" = none)) ∧
    (lowerStr (pyStrip raw) = "chat" →
       (runGraph env (initialState input)).workflow_path = []) := by
  constructor
  · intro hlab
    rw [runGraph_grading_eq env input raw henv hcls hlab]
    refine ⟨?_, ?_⟩
    · rw [gradingPipeline_path]
      rfl
    · intro hkw
      exact gradingPipeline_no_keyword env _ hkw rfl
  · intro hlab
    rw [runGraph_standard_eq env input raw henv hcls hlab]
    exact standard_tail_path env _

/-- C2 witness: the amended theorem at the concrete environment. -/
theorem C2_workflow_witness :
    (runGraph envC1 (initialState "Grade this essay: The cat sat.")).workflow_path =
      ["grading_workflow_entry", "route_to_grading", "route_to_formatting",
       "route_to_chat_notes"] :=
  ((C2_workflow_amended envC1 "Grade this essay: The cat sat." "grading"
    (by decide) rfl).1 (by decide)).1

/-! ## Claim C7 — failures inside the grading pipeline -/

/-- When the formatting call raises, the pipeline keeps going: the error is
recorded, the formatted output keeps its initialised empty value, and the
downstream steps still run. -/
lemma gradingPipeline_fmt_err (env : Env) (s : AgentState)
    (g : String → Except String String) (gOut : String)
    (f : String → Except String String) (e : String)
    (hg : env.agents "grading" = some g) (hgo : g s.user_input = .ok gOut)
    (hresp : s.agent_responses = [])
    (hf : env.agents "formatting" = some f) (hfe : f gOut = .error e) :
    (gradingPipeline env s).error = "Error in formatting agent: " ++ e ∧
    (gradingPipeline env s).formatted_output = "" := by
  have hs3 : (route_to_grading env (grading_workflow_entry s)).agent_responses
      = [("grading", gOut)] := by
    simp [route_to_grading, grading_workflow_entry, hg, hgo, hresp, dictInsert]
  have hdict : ((dictGet (route_to_grading env (grading_workflow_entry s)).agent_responses
      "grading").getD "") = gOut := by
    rw [hs3]; simp [dictGet, List.find?]
  have hs4 := route_to_formatting_err env (route_to_grading env (grading_workflow_entry s))
    f e hf (by rw [hdict]; exact hfe)
  have hhead4 : (route_to_formatting env (route_to_grading env
      (grading_workflow_entry s))).agent_responses.head? = some ("grading", gOut) := by
    rw [hs4]
    show (route_to_grading env (grading_workflow_entry s)).agent_responses.head?
      = some ("grading", gOut)
    rw [hs3]
    rfl
  have hhead5 := route_to_chat_notes_head env _ ("grading", gOut) hhead4 rfl
  have hfin := synthesize_response_head
    (manage_data env (route_to_chat_notes env (route_to_formatting env
      (route_to_grading env (grading_workflow_entry s))))) ("grading", gOut)
    (by simpa [manage_data_eq] using hhead5)
  constructor
  · unfold gradingPipeline
    rw [hfin.2.1]
    show (route_to_chat_notes env (route_to_formatting env (route_to_grading env
      (grading_workflow_entry s)))).error = "Error in formatting agent: " ++ e
    rw [(route_to_chat_notes_frame env _).1, hs4]
  · unfold gradingPipeline
    rw [hfin.2.2.1]
    show (route_to_chat_notes env (route_to_formatting env (route_to_grading env
      (grading_workflow_entry s)))).formatted_output = ""
    rw [(route_to_chat_notes_frame env _).2.1, hs4]
    show (route_to_grading env (grading_workflow_entry s)).formatted_output = ""
    rw [(route_to_grading_frame env _).2.2]
    rfl

/-- When the formatting agent is unregistered, the raw grading output
becomes the formatted output. -/
lemma gradingPipeline_fmt_none (env : Env) (s : AgentState)
    (g : String → Except String String) (gOut : String)
    (hg : env.agents "grading" = some g) (hgo : g s.user_input = .ok gOut)
    (hresp : s.agent_responses = [])
    (hf : env.agents "formatting" = none) :
    (gradingPipeline env s).formatted_output = gOut := by
  have hs3 : (route_to_grading env (grading_workflow_entry s)).agent_responses
      = [("grading", gOut)] := by
    simp [route_to_grading, grading_workflow_entry, hg, hgo, hresp, dictInsert]
  have hdict : ((dictGet (route_to_grading env (grading_workflow_entry s)).agent_responses
      "grading").getD "") = gOut := by
    rw [hs3]; simp [dictGet, List.find?]
  have hs4 := route_to_formatting_none env
    (route_to_grading env (grading_workflow_entry s)) hf
  have hhead4 : (route_to_formatting env (route_to_grading env
      (grading_workflow_entry s))).agent_responses.head? = some ("grading", gOut) := by
    rw [hs4]
    show (route_to_grading env (grading_workflow_entry s)).agent_responses.head?
      = some ("grading", gOut)
    rw [hs3]
    rfl
  have hhead5 := route_to_chat_notes_head env _ ("grading", gOut) hhead4 rfl
  have hfin := synthesize_response_head
    (manage_data env (route_to_chat_notes env (route_to_formatting env
      (route_to_grading env (grading_workflow_entry s))))) ("grading", gOut)
    (by simpa [manage_data_eq] using hhead5)
  unfold gradingPipeline
  rw [hfin.2.2.1]
  show (route_to_chat_notes env (route_to_formatting env (route_to_grading env
    (grading_workflow_entry s)))).formatted_output = gOut
  rw [(route_to_chat_notes_frame env _).2.1, hs4]
  show ((dictGet (route_to_grading env (grading_workflow_entry s)).agent_responses
    "grading").getD "") = gOut
  exact hdict

/-- When the grading agent is unregistered, the pipeline does NOT abort:
the error is recorded in the state, but formatting still runs on the empty
string and its output becomes the synthesized response. -/
lemma gradingPipeline_grading_missing (env : Env) (s : AgentState)
    (f : String → Except String String) (fOut : String)
    (hgn : env.agents "grading" = none) (hresp : s.agent_responses = [])
    (hf : env.agents "formatting" = some f) (hff : f "" = .ok fOut) :
    (gradingPipeline env s).response = fOut ++ contextNote env.dataCtx ∧
    (gradingPipeline env s).error = "Grading agent not available" := by
  have hs3 := route_to_grading_none env (grading_workflow_entry s) hgn
  have hresp3 : (route_to_grading env (grading_workflow_entry s)).agent_responses = [] := by
    rw [hs3]
    show s.agent_responses = []
    exact hresp
  have hdict : ((dictGet (route_to_grading env (grading_workflow_entry s)).agent_responses
      "grading").getD "") = "" := by
    rw [hresp3]; rfl
  have hs4 := route_to_formatting_ok env (route_to_grading env (grading_workflow_entry s))
    f fOut hf (by rw [hdict]; exact hff)
  have hhead4 : (route_to_formatting env (route_to_grading env
      (grading_workflow_entry s))).agent_responses.head? = some ("formatting", fOut) := by
    rw [hs4]
    show (dictInsert (route_to_grading env
      (grading_workflow_entry s)).agent_responses "formatting" fOut).head?
      = some ("formatting", fOut)
    rw [hresp3]
    rfl
  have hhead5 := route_to_chat_notes_head env _ ("formatting", fOut) hhead4 rfl
  have hfin := synthesize_response_head
    (manage_data env (route_to_chat_notes env (route_to_formatting env
      (route_to_grading env (grading_workflow_entry s))))) ("formatting", fOut)
    (by simpa [manage_data_eq] using hhead5)
  constructor
  · unfold gradingPipeline
    rw [hfin.1]
    rfl
  · unfold gradingPipeline
    rw [hfin.2.1]
    show (route_to_chat_notes env (route_to_formatting env (route_to_grading env
      (grading_workflow_entry s)))).error = "Grading agent not available"
    rw [(route_to_chat_notes_frame env _).1, hs4]
    show (route_to_grading env (grading_workflow_entry s)).error
      = "Grading agent not available"
    rw [hs3]

/-- A concrete environment for C7: classified as grading, but the grading
agent is unregistered while the formatting agent works. -/
def envC7 : Env :=
  { classify := .ok "grading"
    agents := fun a =>
      if a = "formatting" then some (fun t => .ok ("TABLE[" ++ t ++ "]")) else none
    masterLLM := .ok "unused"
    dataCtx := none
    maxInputLength := 10000 }

/-- C7 counterexample: a failure in the grading step (agent unavailable)
does NOT abort the remaining pipeline steps and does NOT surface the
apology response — formatting still runs (on the empty string) and its
output is returned as a normal response. -/
theorem C7_formatting_counterexample :
    (runGraph envC7 (initialState "Grade the quiz")).error =
      "Grading agent not available" ∧
    (runGraph envC7 (initialState "Grade the quiz")).response = "TABLE[]" ∧
    (runGraph envC7 (initialState "Grade the quiz")).response ≠
      "I apologize, but I encountered an error: Grading agent not available" ∧
    (runGraph envC7 (initialState "Grade the quiz")).workflow_path =
      ["grading_workflow_entry", "route_to_grading", "route_to_formatting",
       "route_to_chat_notes"] := by
  refine ⟨by decide, by decide, by decide, by decide⟩

/-- C7 (amended): inside the grading pipeline no step failure aborts the
remaining steps — the graph has no error edges after classification.  When
the formatting call raises, the error is recorded, `formatted_output` keeps
its initialised empty value (not the raw text), and the synthesized
response is still the raw grading text; when the formatting agent is
unregistered, the raw grading text becomes the formatted output; when the
grading step fails (agent unavailable), the downstream steps still run and
the response is the formatting of the empty string — not the apology
response. -/
theorem C7_formatting_amended (env : Env) (input raw : String)
    (henv : pyStrip input ≠ "") (hcls : env.classify = .ok raw)
    (hlab : lowerStr (pyStrip raw) = "grading") :
    (∀ g gOut f e, env.agents "grading" = some g → g input = .ok gOut →
       env.agents "formatting" = some f → f gOut = .error e →
       (runGraph env (initialState input)).error = "Error in formatting agent: " ++ e ∧
       (runGraph env (initialState input)).formatted_output = "" ∧
       (runGraph env (initialState input)).response = gOut ++ contextNote env.dataCtx) ∧
    (∀ g gOut, env.agents "grading" = some g → g input = .ok gOut →
       env.agents "formatting" = none →
       (runGraph env (initialState input)).formatted_output = gOut ∧
       (runGraph env (initialState input)).response = gOut ++ contextNote env.dataCtx) ∧
    (∀ f fOut, env.agents "grading" = none →
       env.agents "formatting" = some f → f "" = .ok fOut →
       (runGraph env (initialState input)).response = fOut ++ contextNote env.dataCtx ∧
       (runGraph env (initialState input)).error = "Grading agent not available" ∧
       (runGraph env (initialState input)).workflow_path =
         ["grading_workflow_entry", "route_to_grading", "route_to_formatting",
          "route_to_chat_notes"]) := by
  refine ⟨?_, ?_, ?_⟩
  · intro g gOut f e hg hgo hf hfe
    rw [runGraph_grading_eq env input raw henv hcls hlab]
    have h1 := gradingPipeline_fmt_err env
      { initialState input with task_classification := "grading", agent_type := "grading" }
      g gOut f e hg hgo rfl hf hfe
    exact ⟨h1.1, h1.2, gradingPipeline_response env _ g gOut hg hgo rfl⟩
  · intro g gOut hg hgo hf
    rw [runGraph_grading_eq env input raw henv hcls hlab]
    exact ⟨gradingPipeline_fmt_none env _ g gOut hg hgo rfl hf,
      gradingPipeline_response env _ g gOut hg hgo rfl⟩
  · intro f fOut hgn hf hff
    rw [runGraph_grading_eq env input raw henv hcls hlab]
    have h1 := gradingPipeline_grading_missing env
      { initialState input with task_classification := "grading", agent_type := "grading" }
      f fOut hgn rfl hf hff
    refine ⟨h1.1, h1.2, ?_⟩
    rw [gradingPipeline_path]
    rfl

/-- C7 witness: the amended theorem's grading-missing clause at the
concrete environment. -/
theorem C7_formatting_witness :
    (runGraph envC7 (initialState "Grade the quiz")).response =
      "TABLE[]" ++ contextNote none ∧
    (runGraph envC7 (initialState "Grade the quiz")).error =
      "Grading agent not available" := by
  have h := (C7_formatting_amended envC7 "Grade the quiz" "grading"
    (by decide) rfl (by decide)).2.2 (fun t => .ok ("TABLE[" ++ t ++ "]"))
    "TABLE[]" rfl rfl rfl
  exact ⟨h.1, h.2.1⟩

/-! ## Claim C3 — chat's exception boundary -/

/-- An appended message is always the last stored message (trimming only
drops from the front; with `max_messages = 0` nothing is trimmed). -/
lemma add_message_getLast (h : ConversationHistory) (m : ChatMessage) :
    (add_message h m).messages.getLast? = some m := by
  by_cases hlt : h.max_messages < (h.messages ++ [m]).length
  · simp only [add_message, if_pos hlt, pySliceLast]
    by_cases h0 : h.max_messages = 0
    · rw [if_pos h0]
      exact List.getLast?_concat _
    · rw [if_neg h0]
      have hd : (h.messages ++ [m]).length - h.max_messages ≤ h.messages.length := by
        simp only [List.length_append, List.length_cons, List.length_nil]
        omega
      rw [List.drop_append_of_le_length hd]
      exact List.getLast?_concat _
  · simp only [add_message, if_neg hlt]
    exact List.getLast?_concat _

/-- C3 (amended): `chat` raises `InputValidationException` exactly when
validation fails, raises `RateLimitException` exactly when (validation
passed and) the rate limiter denies, and otherwise always answers.  An
exception escaping the workflow invocation is converted to the apology
string embedding its message and appended to history tagged
`agentType = "error"`; an error captured INSIDE the workflow graph also
produces an apology response, but that one is appended tagged with the
task classification (not `"error"`), like a normal response. -/
theorem C3_chat_amended (env : Env) (ma : MasterAgentRT)
    (input session_id : String) (now : Nat) :
    ((validate_input env.maxInputLength input).valid = false →
       (chat env ma input session_id now).1 =
         .raisedValidation ((validate_input env.maxInputLength input).error.getD "")) ∧
    ((validate_input env.maxInputLength input).valid = true →
       (check_rate_limit ma.limiter session_id now).1.allowed = false →
       (chat env ma input session_id now).1 =
         .raisedRateLimit ("Rate limit exceeded. Please try again in "
           ++ toString (check_rate_limit ma.limiter session_id now).1.retry_after
           ++ " seconds.")) ∧
    ((validate_input env.maxInputLength input).valid = true →
       (check_rate_limit ma.limiter session_id now).1.allowed = true →
       ∃ r, (chat env ma input session_id now).1 = .answered r) ∧
    ((validate_input env.maxInputLength input).valid = true →
       (check_rate_limit ma.limiter session_id now).1.allowed = true →
       (cache_get ma.cache (sanitize_input input)
         (some (toString ma.history.messages.length)) now).1 = none →
       ∀ e, env.graphExc = some e →
       (chat env ma input session_id now).1 =
           .answered ("I apologize, but I encountered an error: " ++ e) ∧
       (chat env ma input session_id now).2.history.messages.getLast? =
         some { role := "assistant"
                content := "I apologize, but I encountered an error: " ++ e
                timestamp := now, agent_type := some "error", metadata := some [] }) ∧
    ((validate_input env.maxInputLength input).valid = true →
       (check_rate_limit ma.limiter session_id now).1.allowed = true →
       (cache_get ma.cache (sanitize_input input)
         (some (toString ma.history.messages.length)) now).1 = none →
       env.graphExc = none →
       (chat env ma input session_id now).1 =
           .answered (runGraph env (initialState (sanitize_input input))).response ∧
       (chat env ma input session_id now).2.history.messages.getLast? =
         some { role := "assistant"
                content := (runGraph env (initialState (sanitize_input input))).response
                timestamp := now
                agent_type :=
                  some (runGraph env (initialState (sanitize_input input))).task_classification
                metadata := some [] }) := by
  refine ⟨?_, ?_, ?_, ?_, ?_⟩
  · intro hv
    simp only [chat]
    rw [if_pos hv]
  · intro hv hr
    simp only [chat]
    rw [if_neg (by simp [hv])]
    rcases hrc : check_rate_limit ma.limiter session_id now with ⟨rc, rl⟩
    rw [hrc] at hr
    dsimp only at hr ⊢
    rw [if_pos hr]
  · intro hv hr
    simp only [chat]
    rw [if_neg (by simp [hv])]
    rcases hrc : check_rate_limit ma.limiter session_id now with ⟨rc, rl⟩
    rw [hrc] at hr
    dsimp only at hr ⊢
    rw [if_neg (by simp [hr])]
    rcases hcg : cache_get ma.cache (sanitize_input input)
        (some (toString ma.history.messages.length)) now with ⟨copt, c2⟩
    cases copt with
    | some c =>
      dsimp only
      by_cases hc : c ≠ ""
      · rw [if_pos hc]
        exact ⟨c, rfl⟩
      · rw [if_neg hc]
        simp only [chat.chatAfterCache]
        cases hex : env.graphExc with
        | some e => exact ⟨_, rfl⟩
        | none => exact ⟨_, rfl⟩
    | none =>
      dsimp only
      simp only [chat.chatAfterCache]
      cases hex : env.graphExc with
      | some e => exact ⟨_, rfl⟩
      | none => exact ⟨_, rfl⟩
  · intro hv hr hmiss e hex
    simp only [chat]
    rw [if_neg (by simp [hv])]
    rcases hrc : check_rate_limit ma.limiter session_id now with ⟨rc, rl⟩
    rw [hrc] at hr
    dsimp only at hr ⊢
    rw [if_neg (by simp [hr])]
    rcases hcg : cache_get ma.cache (sanitize_input input)
        (some (toString ma.history.messages.length)) now with ⟨copt, c2⟩
    rw [hcg] at hmiss
    dsimp only at hmiss
    subst hmiss
    simp only [chat.chatAfterCache]
    rw [hex]
    dsimp only
    exact ⟨rfl, add_message_getLast _ _⟩
  · intro hv hr hmiss hex
    simp only [chat]
    rw [if_neg (by simp [hv])]
    rcases hrc : check_rate_limit ma.limiter session_id now with ⟨rc, rl⟩
    rw [hrc] at hr
    dsimp only at hr ⊢
    rw [if_neg (by simp [hr])]
    rcases hcg : cache_get ma.cache (sanitize_input input)
        (some (toString ma.history.messages.length)) now with ⟨copt, c2⟩
    rw [hcg] at hmiss
    dsimp only at hmiss
    subst hmiss
    simp only [chat.chatAfterCache]
    rw [hex]
    dsimp only
    exact ⟨rfl, add_message_getLast _ _⟩

/-- An environment whose classification LLM call raises. -/
def envC3 : Env :=
  { classify := .error "LLM down"
    agents := fun _ => none
    masterLLM := .error "down"
    dataCtx := none
    maxInputLength := 10000 }

/-- A fresh orchestrator runtime state: empty history, enabled empty cache,
enabled empty limiter. -/
def maC3 : MasterAgentRT :=
  { history := { max_messages := 20, messages := [] }
    cache := { max_size := 100, ttl := 3600, enabled := true, entries := []
               hits := 0, misses := 0 }
    limiter := { maxCalls := 3, timeWindow := 60, calls := [], enabled := true }
    monitorLog := [], metricsLog := [], tokenLog := [] }

/-- C3 counterexample: a failure inside the workflow graph (here the
classification call raising) is returned as an apology string embedding the
message — but the history entry is tagged with the (empty) task
classification, not with `agentType = "error"`. -/
theorem C3_error_tag_counterexample :
    (chat envC3 maC3 "Hello" "s" 100).1 =
      .answered "I apologize, but I encountered an error: Error classifying task: LLM down" ∧
    (chat envC3 maC3 "Hello" "s" 100).2.history.messages.getLast? =
      some { role := "assistant"
             content := "I apologize, but I encountered an error: Error classifying task: LLM down"
             timestamp := 100, agent_type := some "", metadata := some [] } ∧
    (some "" : Option String) ≠ some "error" := by
  refine ⟨by decide, by decide, by decide⟩

/-- An environment whose workflow invocation itself raises. -/
def envC3x : Env :=
  { classify := .ok "chat"
    agents := fun _ => none
    masterLLM := .ok "hi"
    dataCtx := none
    graphExc := some "boom"
    maxInputLength := 10000 }

/-- C3 witness: the amended theorem at concrete inputs — validation raise,
rate-limit raise, and the apology-with-error-tag for a raised exception. -/
theorem C3_chat_witness :
    (chat envC3 maC3 "" "s" 0).1 = .raisedValidation "Input cannot be empty" ∧
    (chat envC3
        { maC3 with limiter := { maxCalls := 1, timeWindow := 60
                                 calls := [("s", [5])], enabled := true } }
        "Hello" "s" 10).1 =
      .raisedRateLimit ("Rate limit exceeded. Please try again in "
        ++ toString (check_rate_limit
            { maxCalls := 1, timeWindow := 60, calls := [("s", [5])], enabled := true }
            "s" 10).1.retry_after ++ " seconds.") ∧
    (chat envC3x maC3 "Hello" "s" 7).1 =
      .answered "I apologize, but I encountered an error: boom" := by
  refine ⟨?_, ?_, ?_⟩
  · exact (C3_chat_amended envC3 maC3 "" "s" 0).1 (by decide)
  · exact (C3_chat_amended envC3 _ "Hello" "s" 10).2.1 (by decide) (by decide)
  · exact ((C3_chat_amended envC3x maC3 "Hello" "s" 7).2.2.2.1 (by decide) (by decide)
      (by decide) "boom" rfl).1

/-! ## Claim C10 — a cache hit changes nothing else -/

/-- Erasing the found element and re-appending it is a permutation. -/
lemma find?_eraseP_perm (p : CacheEntry → Bool) (l : List CacheEntry) (e : CacheEntry)
    (he : l.find? p = some e) : (l.eraseP p ++ [e]).Perm l := by
  induction l with
  | nil => simp at he
  | cons a t ih =>
    by_cases hp : p a = true
    · rw [List.find?_cons_of_pos _ hp] at he
      have hea : a = e := by injection he
      rw [List.eraseP_cons, hp, cond_true, hea]
      exact List.perm_append_singleton _ _
    · rw [List.find?_cons_of_neg _ (by simp [hp])] at he
      rw [Bool.not_eq_true] at hp
      rw [List.eraseP_cons, hp, cond_false]
      simp only [List.cons_append]
      exact List.Perm.cons a (ih he)

/-- Moving a present key to the most-recently-used end permutes the
entries. -/
lemma moveToEnd_perm (l : List CacheEntry) (k : String) (e : CacheEntry)
    (he : findEntry l k = some e) : (moveToEnd l k).Perm l := by
  unfold moveToEnd
  rw [he]
  exact find?_eraseP_perm _ l e he

/-- C10: when a validated, admitted `chat` call hits the cache with a fresh
non-empty entry, it returns the cached value immediately; the conversation
history, monitor log, metrics log and token log are unchanged, and no cache
entry is added or removed (the entries are merely permuted to update
recency). -/
theorem C10_cache_hit_frame (env : Env) (ma : MasterAgentRT)
    (input session_id : String) (now : Nat) (e : CacheEntry)
    (hval : (validate_input env.maxInputLength input).valid = true)
    (hrate : (check_rate_limit ma.limiter session_id now).1.allowed = true)
    (hen : ma.cache.enabled = true)
    (he : findEntry ma.cache.entries
      (generate_key (sanitize_input input)
        (some (toString ma.history.messages.length))) = some e)
    (hfresh : now - e.timestamp < ma.cache.ttl)
    (hne : e.value ≠ "") :
    (chat env ma input session_id now).1 = .answered e.value ∧
    (chat env ma input session_id now).2.history = ma.history ∧
    (chat env ma input session_id now).2.monitorLog = ma.monitorLog ∧
    (chat env ma input session_id now).2.metricsLog = ma.metricsLog ∧
    (chat env ma input session_id now).2.tokenLog = ma.tokenLog ∧
    (chat env ma input session_id now).2.cache.entries.Perm ma.cache.entries := by
  have hcg : cache_get ma.cache (sanitize_input input)
      (some (toString ma.history.messages.length)) now =
      (some e.value,
       { ma.cache with
         entries := moveToEnd ma.cache.entries
           (generate_key (sanitize_input input)
             (some (toString ma.history.messages.length)))
         hits := ma.cache.hits + 1 }) := by
    rw [cache_get_enabled ma.cache _ _ now hen, he]
    dsimp only
    rw [if_pos hfresh]
  have hmain : chat env ma input session_id now =
      (.answered e.value,
       { ma with
         limiter := (check_rate_limit ma.limiter session_id now).2
         cache :=
           { ma.cache with
             entries := moveToEnd ma.cache.entries
               (generate_key (sanitize_input input)
                 (some (toString ma.history.messages.length)))
             hits := ma.cache.hits + 1 } }) := by
    simp only [chat]
    rw [if_neg (by simp [hval])]
    rcases hrc : check_rate_limit ma.limiter session_id now with ⟨rc, rl⟩
    rw [hrc] at hrate
    dsimp only at hrate ⊢
    rw [if_neg (by simp [hrate]), hcg]
    dsimp only
    rw [if_pos hne]
  rw [hmain]
  refine ⟨rfl, rfl, rfl, rfl, rfl, ?_⟩
  exact moveToEnd_perm ma.cache.entries _ e he

/-- A runtime state holding one fresh cached entry for sanitized input
`"Hello"` with history-length context `"0"`. -/
def maC10 : MasterAgentRT :=
  { history := { max_messages := 20, messages := [] }
    cache := { max_size := 100, ttl := 3600, enabled := true
               entries := [{ key := "Hello0", value := "cached reply", timestamp := 50 }]
               hits := 0, misses := 0 }
    limiter := { maxCalls := 3, timeWindow := 60, calls := [], enabled := true }
    monitorLog := [], metricsLog := [], tokenLog := [] }

/-- C10 witness: the frame theorem at a concrete cache hit. -/
theorem C10_cache_hit_witness :
    (chat envC3 maC10 "Hello" "s" 60).1 = .answered "cached reply" ∧
    (chat envC3 maC10 "Hello" "s" 60).2.history = maC10.history ∧
    (chat envC3 maC10 "Hello" "s" 60).2.monitorLog = maC10.monitorLog := by
  have h := C10_cache_hit_frame envC3 maC10 "Hello" "s" 60
    { key := "Hello0", value := "cached reply", timestamp := 50 }
    (by decide) (by decide) rfl (by decide) (by decide) (by decide)
  exact ⟨h.1, h.2.1, h.2.2.1⟩

/-! ## Claim C8 — terminal events in the streaming protocol -/

/-- Chunk events are never terminal. -/
lemma countP_terminal_chunks (a a2 : String) (cs : List String) :
    ((cs.map (fun c => StreamEvent.chunk c a2)).countP (isTerminalFor a)) = 0 := by
  rw [List.countP_eq_zero]
  intro x hx
  rcases List.mem_map.mp hx with ⟨c, _, rfl⟩
  simp [isTerminalFor]

/-- Chunk events are never terminal (composed form left by `countP_map`). -/
lemma countP_terminal_chunks_comp (a a2 : String) (cs : List String) :
    (cs.countP (isTerminalFor a ∘ fun c => StreamEvent.chunk c a2)) = 0 := by
  rw [List.countP_eq_zero]
  intro x hx
  simp [Function.comp, isTerminalFor]

/-- After validation and admission, `chat_streaming` is one classification
status event followed by the classified workflow's events. -/
lemma chat_streaming_admitted (maxLen : Nat) (agents : String → Option StreamAgentSpec)
    (rl : RateLimiter) (input session_id : String) (now : Nat)
    (hval : (validate_input maxLen input).valid = true)
    (hrate : (check_rate_limit rl session_id now).1.allowed = true) :
    chat_streaming maxLen agents rl input session_id now =
      [StreamEvent.status "Classifying request..." "master"]
        ++ (if streamingClassify (lowerStr (sanitize_input input)) = "grading"
            then streamingGradingWorkflow agents (sanitize_input input)
            else streamingSingleAgent agents
              (streamingClassify (lowerStr (sanitize_input input)))
              (sanitize_input input)) := by
  simp only [chat_streaming]
  rw [if_neg (by simp [hval])]
  rcases hrc : check_rate_limit rl session_id now with ⟨rc, rl2⟩
  rw [hrc] at hrate
  dsimp only at hrate ⊢
  rw [if_neg (by simp [hrate])]

/-- C8 (amended): for a validated, admitted input, an agent that streams
(`stream_process` present) gets exactly one terminal event — a `Complete`
on success, or a single unattributed `Error` event ending the sequence on
failure; an agent served by the non-streaming fallback emits its full
output as one `Chunk` with NO terminal event at all. -/
theorem C8_stream_terminal_amended (maxLen : Nat)
    (agents : String → Option StreamAgentSpec) (rl : RateLimiter)
    (input session_id : String) (now : Nat)
    (hval : (validate_input maxLen input).valid = true)
    (hrate : (check_rate_limit rl session_id now).1.allowed = true) :
    (streamingClassify (lowerStr (sanitize_input input)) = "chat" →
      ∀ a, agents "chat" = some a →
      (∀ sc cs, a.streamChunks = some sc → sc (sanitize_input input) = (cs, none) →
        chat_streaming maxLen agents rl input session_id now =
          [StreamEvent.status "Classifying request..." "master",
           StreamEvent.status "Processing with chat agent..." "chat"]
            ++ cs.map (fun c => StreamEvent.chunk c "chat")
            ++ [StreamEvent.complete "" "chat"] ∧
        (chat_streaming maxLen agents rl input session_id now).countP
          (isTerminalFor "chat") = 1) ∧
      (∀ sc cs e, a.streamChunks = some sc → sc (sanitize_input input) = (cs, some e) →
        chat_streaming maxLen agents rl input session_id now =
          [StreamEvent.status "Classifying request..." "master",
           StreamEvent.status "Processing with chat agent..." "chat"]
            ++ cs.map (fun c => StreamEvent.chunk c "chat")
            ++ [StreamEvent.error ("Error: " ++ e)] ∧
        (chat_streaming maxLen agents rl input session_id now).countP
          (isTerminalFor "chat") = 1) ∧
      (∀ r, a.streamChunks = none → a.proc (sanitize_input input) = .ok r →
        chat_streaming maxLen agents rl input session_id now =
          [StreamEvent.status "Classifying request..." "master",
           StreamEvent.chunk r "chat"] ∧
        (chat_streaming maxLen agents rl input session_id now).countP
          (isTerminalFor "chat") = 0 ∧
        participates "chat" (chat_streaming maxLen agents rl input session_id now)
          = true)) ∧
    (streamingClassify (lowerStr (sanitize_input input)) = "grading" →
      ∀ ga gsc gcs fa fsc fcs, agents "grading" = some ga →
        ga.streamChunks = some gsc → gsc (sanitize_input input) = (gcs, none) →
        agents "formatting" = some fa → fa.streamChunks = some fsc →
        fsc (String.join gcs) = (fcs, none) →
        (chat_streaming maxLen agents rl input session_id now).countP
          (isTerminalFor "grading") = 1 ∧
        (chat_streaming maxLen agents rl input session_id now).countP
          (isTerminalFor "formatting") = 1) := by
  have hbase := chat_streaming_admitted maxLen agents rl input session_id now hval hrate
  constructor
  · intro hc a ha
    refine ⟨?_, ?_, ?_⟩
    · intro sc cs hsc hchunks
      have hev : chat_streaming maxLen agents rl input session_id now =
          [StreamEvent.status "Classifying request..." "master",
           StreamEvent.status "Processing with chat agent..." "chat"]
            ++ cs.map (fun c => StreamEvent.chunk c "chat")
            ++ [StreamEvent.complete "" "chat"] := by
        rw [hbase, hc]
        rw [if_neg (by decide)]
        simp [streamingSingleAgent, ha, hsc, hchunks, streamPhase]
      refine ⟨hev, ?_⟩
      rw [hev]
      simp [List.countP_append, List.countP_cons, countP_terminal_chunks,
        countP_terminal_chunks_comp, isTerminalFor]
    · intro sc cs e hsc hchunks
      have hev : chat_streaming maxLen agents rl input session_id now =
          [StreamEvent.status "Classifying request..." "master",
           StreamEvent.status "Processing with chat agent..." "chat"]
            ++ cs.map (fun c => StreamEvent.chunk c "chat")
            ++ [StreamEvent.error ("Error: " ++ e)] := by
        rw [hbase, hc]
        rw [if_neg (by decide)]
        simp [streamingSingleAgent, ha, hsc, hchunks, streamPhase]
      refine ⟨hev, ?_⟩
      rw [hev]
      simp [List.countP_append, List.countP_cons, countP_terminal_chunks,
        countP_terminal_chunks_comp, isTerminalFor]
    · intro r hsc hproc
      have hev : chat_streaming maxLen agents rl input session_id now =
          [StreamEvent.status "Classifying request..." "master",
           StreamEvent.chunk r "chat"] := by
        rw [hbase, hc]
        rw [if_neg (by decide)]
        simp [streamingSingleAgent, ha, hsc, hproc]
      refine ⟨hev, ?_, ?_⟩
      · rw [hev]
        simp [List.countP_cons, isTerminalFor]
      · rw [hev]
        simp [participates]
  · intro hc ga gsc gcs fa fsc fcs hga hgsc hgch hfa hfsc hfch
    have hev : chat_streaming maxLen agents rl input session_id now =
        [StreamEvent.status "Classifying request..." "master",
         StreamEvent.status "Starting grading workflow..." "master",
         StreamEvent.status "Analyzing with grading agent..." "grading"]
          ++ (gcs.map (fun c => StreamEvent.chunk c "grading")
                ++ [StreamEvent.complete "" "grading"])
          ++ [StreamEvent.status "Formatting results..." "formatting"]
          ++ (fcs.map (fun c => StreamEvent.chunk c "formatting")
                ++ [StreamEvent.complete "" "formatting"]) := by
      rw [hbase, hc]
      rw [if_pos rfl]
      simp [streamingGradingWorkflow, hga, hgsc, hgch, hfa, hfsc, hfch, streamPhase]
    constructor
    · rw [hev]
      simp [List.countP_append, List.countP_cons, countP_terminal_chunks,
        countP_terminal_chunks_comp, isTerminalFor]
    · rw [hev]
      simp [List.countP_append, List.countP_cons, countP_terminal_chunks,
        countP_terminal_chunks_comp, isTerminalFor]

/-- The concrete counterexample agents: a chat agent without
`stream_process` (non-streaming fallback). -/
def sAgentsC8 : String → Option StreamAgentSpec := fun a =>
  if a = "chat" then some { streamChunks := none, proc := fun _ => .ok "Hi there" }
  else none

/-- A fresh enabled limiter for the streaming examples. -/
def rlC8 : RateLimiter :=
  { maxCalls := 3, timeWindow := 60, calls := [], enabled := true }

/-- C8 counterexample: with the non-streaming fallback, the chat agent
participates (it emits a chunk) but gets NO terminal event at all — neither
`Complete` nor `Error` — falsifying "exactly one terminal event per
participating agent". -/
theorem C8_terminal_counterexample :
    participates "chat" (chat_streaming 10000 sAgentsC8 rlC8 "Hello" "s" 0) = true ∧
    (chat_streaming 10000 sAgentsC8 rlC8 "Hello" "s" 0).countP (isTerminalFor "chat")
      = 0 ∧
    (0 : Nat) ≠ 1 := by
  refine ⟨by decide, by decide, by decide⟩

/-- Streaming-capable counterpart used by the witness. -/
def sAgentsC8w : String → Option StreamAgentSpec := fun a =>
  if a = "chat" then
    some { streamChunks := some (fun _ => (["Hi ", "there"], none))
           proc := fun _ => .ok "unused" }
  else none

/-- C8 witness: the amended theorem at a concrete streaming chat agent —
exactly one terminal `Complete` event. -/
theorem C8_stream_terminal_witness :
    (chat_streaming 10000 sAgentsC8w rlC8 "Hello" "s" 0).countP (isTerminalFor "chat")
      = 1 :=
  (((C8_stream_terminal_amended 10000 sAgentsC8w rlC8 "Hello" "s" 0
      (by decide) (by decide)).1 (by decide) _ rfl).1
    (fun _ => (["Hi ", "there"], none)) ["Hi ", "there"] rfl rfl).2

end GradingAgent
